import Mathlib

/-!
# Verification of the robomoustachio reputation oracle

A shallow embedding of the three core subsystems of the repository —
the scoring engine (`server/scoring.js`), the indexer
(`server/indexer.js`) and the multi-source trust client
(`src/agentkit/{types,fallbacks,client}.js` and
`server/validation.js`) — together with theorems checking the
natural-language specification against this embedding.

Modelling conventions:
* JavaScript numbers are modelled as rationals (`ℚ`); a JS value that
  may be `NaN`/`±Infinity` (or absent) where the code checks
  `Number.isFinite` is modelled as `Option ℚ` with `none` for the
  non-finite/absent case.
* `Math.round x` is `⌊x + 1/2⌋` (JS rounds half up), `Math.min/max`
  are `min`/`max` on `ℚ`.
* Functions that `throw` are modelled in `Except String`.
* Wall-clock effects (`Date.now()`, `new Date().toISOString()`) and
  network latency are not modelled; `nowMs` is always an explicit
  parameter, as in the code's own test seams (`nowMsOverride`).
-/

namespace Scoring

/-- `DAY_MS = 24*60*60*1000` from `server/scoring.js`. -/
def DAY_MS : ℚ := 86400000

/-- JS `Math.round`: round half towards `+∞`. -/
def jsRound (x : ℚ) : ℤ := ⌊x + 1/2⌋

/-- `clamp(value, min, max)` from `server/scoring.js`. -/
def clamp (value lo hi : ℚ) : ℚ := min hi (max lo value)

/-- The normalized scoring configuration (all fields numbers). -/
structure ScoringConfig where
  decayWindowDays : ℚ
  recentFeedbackWeight : ℚ
  olderFeedbackWeight : ℚ
  confidenceThresholdFeedbackCount : ℚ
  confidenceMultiplier : ℚ
  negativeFlagThresholdBps : ℚ
  recentNegativeWindowDays : ℚ
  flaggedScoreMultiplier : ℚ
  maxScore : ℚ
deriving Repr, DecidableEq

/-- `DEFAULT_SCORING_CONFIG` from `server/scoring.js`. -/
def DEFAULT_SCORING_CONFIG : ScoringConfig :=
  { decayWindowDays := 30
    recentFeedbackWeight := 2
    olderFeedbackWeight := 1
    confidenceThresholdFeedbackCount := 50
    confidenceMultiplier := 21/20
    negativeFlagThresholdBps := 2000
    recentNegativeWindowDays := 7
    flaggedScoreMultiplier := 9/10
    maxScore := 1000 }

/-- A raw configuration object before normalization.  Each field holds
`some q` when `Number(field)` is the finite number `q`, and `none` when
the field is absent or coerces to `NaN`/`±Infinity`. -/
structure ConfigInput where
  decayWindowDays : Option ℚ := none
  recentFeedbackWeight : Option ℚ := none
  olderFeedbackWeight : Option ℚ := none
  confidenceThresholdFeedbackCount : Option ℚ := none
  confidenceMultiplier : Option ℚ := none
  negativeFlagThresholdBps : Option ℚ := none
  recentNegativeWindowDays : Option ℚ := none
  flaggedScoreMultiplier : Option ℚ := none
  maxScore : Option ℚ := none
deriving Repr, DecidableEq

/-- `toPositiveNumber(value, fallback)`: keep a finite number `> 0`,
otherwise the fallback. -/
def toPositiveNumber (value : Option ℚ) (fallback : ℚ) : ℚ :=
  match value with
  | some q => if 0 < q then q else fallback
  | none => fallback

/-- `toPositiveInt(value, fallback)`: keep an integer `> 0`, otherwise
the fallback. -/
def toPositiveInt (value : Option ℚ) (fallback : ℚ) : ℚ :=
  match value with
  | some q => if q.den = 1 ∧ 0 < q then q else fallback
  | none => fallback

/-- `toBps(value, fallback)`: non-integers fall back; integers are
clamped into `[0, 10000]`. -/
def toBps (value : Option ℚ) (fallback : ℚ) : ℚ :=
  match value with
  | some q =>
      if q.den = 1 then (if q < 0 then 0 else if 10000 < q then 10000 else q)
      else fallback
  | none => fallback

/-- `normalizeConfig(input)` from `server/scoring.js`. -/
def normalizeConfig (input : ConfigInput) : ScoringConfig :=
  { decayWindowDays := toPositiveInt input.decayWindowDays DEFAULT_SCORING_CONFIG.decayWindowDays
    recentFeedbackWeight :=
      toPositiveNumber input.recentFeedbackWeight DEFAULT_SCORING_CONFIG.recentFeedbackWeight
    olderFeedbackWeight :=
      toPositiveNumber input.olderFeedbackWeight DEFAULT_SCORING_CONFIG.olderFeedbackWeight
    confidenceThresholdFeedbackCount :=
      toPositiveInt input.confidenceThresholdFeedbackCount
        DEFAULT_SCORING_CONFIG.confidenceThresholdFeedbackCount
    confidenceMultiplier :=
      toPositiveNumber input.confidenceMultiplier DEFAULT_SCORING_CONFIG.confidenceMultiplier
    negativeFlagThresholdBps :=
      toBps input.negativeFlagThresholdBps DEFAULT_SCORING_CONFIG.negativeFlagThresholdBps
    recentNegativeWindowDays :=
      toPositiveInt input.recentNegativeWindowDays DEFAULT_SCORING_CONFIG.recentNegativeWindowDays
    flaggedScoreMultiplier :=
      toPositiveNumber input.flaggedScoreMultiplier DEFAULT_SCORING_CONFIG.flaggedScoreMultiplier
    maxScore := toPositiveInt input.maxScore DEFAULT_SCORING_CONFIG.maxScore }

/-- The raw timestamp value carried by a feedback entry
(`timestamp`/`createdAt`/`time` field).
* `date ms`: a `Date` object; `ms = none` when `getTime()` is not finite.
* `num x`: a JS number; `x = none` when not finite.
* `str ms`: a string; `ms = none` when `Date.parse` yields `NaN`,
  otherwise the parsed epoch milliseconds.
* `other`: any other type. -/
inductive TsVal where
  | date (ms : Option ℚ)
  | num (x : Option ℚ)
  | str (parsedMs : Option ℚ)
  | other
deriving Repr, DecidableEq

/-- A raw feedback entry as consumed by the scoring engine.
`rating` is `some (some x)` when the field is the finite number `x`,
`some none` when it is a non-finite number, `none` when absent or not
a number. -/
structure Feedback where
  timestamp : Option TsVal := none
  createdAt : Option TsVal := none
  time : Option TsVal := none
  isPositive : Option Bool := none
  sentiment : Option String := none
  rating : Option (Option ℚ) := none
deriving Repr, DecidableEq

/-- `parseFeedbackTimestampMs(feedback)` from `server/scoring.js`. -/
def parseFeedbackTimestampMs (f : Feedback) : Except String ℚ :=
  match f.timestamp.orElse (fun _ => f.createdAt) |>.orElse (fun _ => f.time) with
  | none => .error "Feedback entry is missing timestamp/createdAt/time"
  | some (.date none) => .error "Feedback timestamp Date is invalid"
  | some (.date (some ms)) => .ok ms
  | some (.num none) => .error "Feedback timestamp number is invalid"
  | some (.num (some x)) =>
      if x ≤ 0 then .error "Feedback timestamp number is invalid"
      else .ok (if x < 1000000000000 then x * 1000 else x)
  | some (.str none) => .error "Feedback timestamp string is invalid"
  | some (.str (some ms)) => .ok ms
  | some .other => .error "Feedback timestamp type is unsupported"

/-- The `sentiment` string branch of `parseFeedbackSentiment`. -/
def sentimentLabel (s : Option String) : Option Bool :=
  match s with
  | none => none
  | some raw =>
      let normalized := raw.trim.toLower
      if normalized = "positive" then some true
      else if normalized = "negative" then some false
      else none

/-- `parseFeedbackSentiment(feedback)` from `server/scoring.js`. -/
def parseFeedbackSentiment (f : Feedback) : Except String Bool :=
  match f.isPositive with
  | some b => .ok b
  | none =>
      match sentimentLabel f.sentiment with
      | some b => .ok b
      | none =>
          match f.rating with
          | some (some x) => .ok (decide (0 < x))
          | _ => .error "Feedback entry must include isPositive boolean (or equivalent sentiment/rating)"

/-- The accumulator of the scoring loop. -/
structure Acc where
  weightedPositive : ℚ := 0
  weightedTotal : ℚ := 0
  totalFeedback : ℕ := 0
  positiveFeedback : ℕ := 0
  recentFeedbackCount : ℕ := 0
  recentNegativeCount : ℕ := 0
deriving Repr, DecidableEq

/-- One iteration of the scoring loop, for an entry with effective
timestamp `t` and positivity `p`. -/
def stepAcc (cfg : ScoringConfig) (decayCutoffMs recentNegativeCutoffMs : ℚ)
    (t : ℚ) (p : Bool) (acc : Acc) : Acc :=
  let weight := if decayCutoffMs ≤ t then cfg.recentFeedbackWeight else cfg.olderFeedbackWeight
  { weightedTotal := acc.weightedTotal + weight
    totalFeedback := acc.totalFeedback + 1
    weightedPositive := acc.weightedPositive + (if p then weight else 0)
    positiveFeedback := acc.positiveFeedback + (if p then 1 else 0)
    recentFeedbackCount := acc.recentFeedbackCount + (if recentNegativeCutoffMs ≤ t then 1 else 0)
    recentNegativeCount :=
      acc.recentNegativeCount + (if recentNegativeCutoffMs ≤ t ∧ ¬p then 1 else 0) }

/-- The `for (const feedback of feedbacks)` loop of
`scoreFeedbackDetailed`; a parse failure aborts the whole computation,
as the corresponding `throw` does. -/
def scoreAccum (cfg : ScoringConfig) (decayCutoffMs recentNegativeCutoffMs : ℚ) :
    List Feedback → Acc → Except String Acc
  | [], acc => .ok acc
  | f :: rest, acc =>
      match parseFeedbackTimestampMs f with
      | .error e => .error e
      | .ok t =>
          match parseFeedbackSentiment f with
          | .error e => .error e
          | .ok p =>
              scoreAccum cfg decayCutoffMs recentNegativeCutoffMs rest
                (stepAcc cfg decayCutoffMs recentNegativeCutoffMs t p acc)

/-- The result record of `scoreFeedbackDetailed`. -/
structure ScoringResult where
  score : ℤ
  baseScore : ℤ
  confidenceAdjustedScore : ℤ
  flagged : Bool
  totalFeedback : ℕ
  positiveFeedback : ℕ
  recentNegativeRateBps : ℤ
  recentFeedbackCount : ℕ
  confidenceApplied : Bool
deriving Repr, DecidableEq

/-- The early-return result when `weightedTotal === 0`. -/
def zeroResult : ScoringResult :=
  { score := 0, baseScore := 0, confidenceAdjustedScore := 0, flagged := false
    totalFeedback := 0, positiveFeedback := 0, recentNegativeRateBps := 0
    recentFeedbackCount := 0, confidenceApplied := false }

/-- The tail of `scoreFeedbackDetailed` after the accumulation loop. -/
def finishScore (cfg : ScoringConfig) (acc : Acc) : ScoringResult :=
  if acc.weightedTotal = 0 then zeroResult
  else
    let baseScoreRaw := acc.weightedPositive / acc.weightedTotal * cfg.maxScore
    let confidenceApplied := cfg.confidenceThresholdFeedbackCount ≤ (acc.totalFeedback : ℚ)
    let confidenceAdjustedRaw :=
      if confidenceApplied then baseScoreRaw * cfg.confidenceMultiplier else baseScoreRaw
    let recentNegativeRateBps : ℤ :=
      if acc.recentFeedbackCount = 0 then 0
      else jsRound ((acc.recentNegativeCount : ℚ) / (acc.recentFeedbackCount : ℚ) * 10000)
    let flagged :=
      0 < acc.recentFeedbackCount ∧ cfg.negativeFlagThresholdBps < (recentNegativeRateBps : ℚ)
    let penalizedRaw :=
      if flagged then confidenceAdjustedRaw * cfg.flaggedScoreMultiplier else confidenceAdjustedRaw
    { score := jsRound (clamp penalizedRaw 0 cfg.maxScore)
      baseScore := jsRound (clamp baseScoreRaw 0 cfg.maxScore)
      confidenceAdjustedScore := jsRound (clamp confidenceAdjustedRaw 0 cfg.maxScore)
      flagged := decide flagged
      totalFeedback := acc.totalFeedback
      positiveFeedback := acc.positiveFeedback
      recentNegativeRateBps := recentNegativeRateBps
      recentFeedbackCount := acc.recentFeedbackCount
      confidenceApplied := decide confidenceApplied }

/-- `scoreFeedbackDetailed(feedbacks, config, nowMs)` from
`server/scoring.js`. -/
def scoreFeedbackDetailed (feedbacks : List Feedback) (config : ConfigInput) (nowMs : ℚ) :
    Except String ScoringResult :=
  let cfg := normalizeConfig config
  let decayCutoffMs := nowMs - cfg.decayWindowDays * DAY_MS
  let recentNegativeCutoffMs := nowMs - cfg.recentNegativeWindowDays * DAY_MS
  match scoreAccum cfg decayCutoffMs recentNegativeCutoffMs feedbacks {} with
  | .error e => .error e
  | .ok acc => .ok (finishScore cfg acc)

/-- `scoreFeedback(feedbacks, config, nowMs)` from `server/scoring.js`. -/
def scoreFeedback (feedbacks : List Feedback) (config : ConfigInput) (nowMs : ℚ) :
    Except String ℤ :=
  (scoreFeedbackDetailed feedbacks config nowMs).map ScoringResult.score

/-! ### Concrete scoring scenarios -/

/-- A reference instant: 2023-11-14T22:13:20Z in epoch milliseconds. -/
def sampleNowMs : ℚ := 1700000000000

/-- One day before `sampleNowMs`, in epoch milliseconds. -/
def sampleDayAgoMs : ℚ := 1700000000000 - 86400000

/-- A positive feedback entry one day old. -/
def samplePositive : Feedback :=
  { timestamp := some (.num (some sampleDayAgoMs)), isPositive := some true }

/-- A negative feedback entry one day old. -/
def sampleNegative : Feedback :=
  { timestamp := some (.num (some sampleDayAgoMs)), isPositive := some false }

/-- The flagging-penalty scenario: 5 positive and 2 negative entries,
all one day old. -/
def flaggingFeedbacks : List Feedback :=
  [samplePositive, samplePositive, samplePositive, samplePositive, samplePositive,
   sampleNegative, sampleNegative]

/-- The flagging-penalty configuration:
`recentNegativeWindowDays=7, negativeFlagThresholdBps=2000,
flaggedScoreMultiplier=0.8, confidenceThresholdFeedbackCount=999`,
other knobs default. -/
def flaggingConfig : ConfigInput :=
  { recentNegativeWindowDays := some 7
    negativeFlagThresholdBps := some 2000
    flaggedScoreMultiplier := some (4/5)
    confidenceThresholdFeedbackCount := some 999 }

/-- The expected result of the flagging-penalty scenario. -/
def flaggingExpected : ScoringResult :=
  { score := 571, baseScore := 714, confidenceAdjustedScore := 714, flagged := true
    totalFeedback := 7, positiveFeedback := 5, recentNegativeRateBps := 2857
    recentFeedbackCount := 7, confidenceApplied := false }

/-- The flagging scenario with the threshold configured at 10000 bps. -/
def highThresholdConfig : ConfigInput :=
  { negativeFlagThresholdBps := some 10000 }

/-- Expected result of the flagging scenario at a 10000 bps threshold
(all entries recent, so every weight is the default 2). -/
def highThresholdExpected : ScoringResult :=
  { score := 714, baseScore := 714, confidenceAdjustedScore := 714, flagged := false
    totalFeedback := 7, positiveFeedback := 5, recentNegativeRateBps := 2857
    recentFeedbackCount := 7, confidenceApplied := false }

/-- A configuration with a sub-unit confidence multiplier `0.1` and a
confidence threshold of 2 feedbacks. -/
def shrinkConfig : ConfigInput :=
  { confidenceThresholdFeedbackCount := some 2, confidenceMultiplier := some (1/10) }

/-- Result for one positive recent entry under `shrinkConfig`. -/
def shrinkResultOne : ScoringResult :=
  { score := 1000, baseScore := 1000, confidenceAdjustedScore := 1000, flagged := false
    totalFeedback := 1, positiveFeedback := 1, recentNegativeRateBps := 0
    recentFeedbackCount := 1, confidenceApplied := false }

/-- Result for two positive recent entries under `shrinkConfig`: the
0.1 confidence multiplier kicks in and shrinks the score. -/
def shrinkResultTwo : ScoringResult :=
  { score := 100, baseScore := 1000, confidenceAdjustedScore := 100, flagged := false
    totalFeedback := 2, positiveFeedback := 2, recentNegativeRateBps := 0
    recentFeedbackCount := 2, confidenceApplied := true }

/-- Result for one positive recent entry under the default config. -/
def defaultResultOne : ScoringResult :=
  { score := 1000, baseScore := 1000, confidenceAdjustedScore := 1000, flagged := false
    totalFeedback := 1, positiveFeedback := 1, recentNegativeRateBps := 0
    recentFeedbackCount := 1, confidenceApplied := false }

/-- Result for two positive recent entries under the default config. -/
def defaultResultTwo : ScoringResult :=
  { score := 1000, baseScore := 1000, confidenceAdjustedScore := 1000, flagged := false
    totalFeedback := 2, positiveFeedback := 2, recentNegativeRateBps := 0
    recentFeedbackCount := 2, confidenceApplied := false }

end Scoring

namespace Js

/-- Does `pat` occur as a prefix of any suffix of the text? -/
def containsAux (pat : List Char) : List Char → Bool
  | [] => pat.isEmpty
  | c :: rest => pat.isPrefixOf (c :: rest) || containsAux pat rest

/-- `String.prototype.includes`: `pat` occurs as a contiguous substring
of `s`. -/
def containsSub (s pat : String) : Bool := containsAux pat.data s.data

/-- `String.prototype.toLowerCase` (ASCII, which covers every literal
the code compares against). -/
def lowerStr (s : String) : String := String.mk (s.data.map Char.toLower)

end Js

namespace AgentKit

/-- `STATUS` from `src/agentkit/types.js`. -/
inductive Status where
  | ok | degraded | error
deriving Repr, DecidableEq

/-- `VERDICT` from `src/agentkit/types.js`. -/
inductive Verdict where
  | TRUSTED | CAUTION | DANGEROUS | UNKNOWN
deriving Repr, DecidableEq

/-- `RECOMMENDATION` from `src/agentkit/types.js`. -/
inductive Recommendation where
  | proceed | manual_review | abort
deriving Repr, DecidableEq

/-- `SOURCE` from `src/agentkit/types.js`. -/
inductive Source where
  | api_paid | api_demo | trustscore_contract
deriving Repr, DecidableEq

/-- `FALLBACK_CODE` from `src/agentkit/fallbacks.js`. -/
inductive FallbackCode where
  | oracle_unavailable | api_timeout | payment_unavailable
  | rpc_unavailable | agent_not_found | invalid_agent_id
deriving Repr, DecidableEq

/-- The string value of a fallback code (used when an error message
falls back to the code itself). -/
def fallbackCodeString : FallbackCode → String
  | .oracle_unavailable => "oracle_unavailable"
  | .api_timeout => "api_timeout"
  | .payment_unavailable => "payment_unavailable"
  | .rpc_unavailable => "rpc_unavailable"
  | .agent_not_found => "agent_not_found"
  | .invalid_agent_id => "invalid_agent_id"

/-- `resolveVerdict(score)` from `src/agentkit/types.js`.  `none`
models a `score` that is not a number (including `null` and `NaN`). -/
def resolveVerdict (score : Option ℚ) : Verdict :=
  match score with
  | none => .UNKNOWN
  | some s => if 700 < s then .TRUSTED else if 400 ≤ s then .CAUTION else .DANGEROUS

/-- `resolveRecommendation(verdict)` from `src/agentkit/types.js`. -/
def resolveRecommendation (verdict : Verdict) : Recommendation :=
  if verdict = .TRUSTED then .proceed
  else if verdict = .CAUTION ∨ verdict = .UNKNOWN then .manual_review
  else .abort

/-- `Number(value.toFixed(4))` for a value already inside `[0, 1]`. -/
def jsToFixed4 (v : ℚ) : ℚ := (Scoring.jsRound (v * 10000) : ℚ) / 10000

/-- `clampConfidence(value)` from `src/agentkit/types.js`. -/
def clampConfidence (value : Option ℚ) : Option ℚ :=
  match value with
  | none => none
  | some v => if v < 0 then some 0 else if 1 < v then some 1 else some (jsToFixed4 v)

/-- `UINT256_MAX` from `server/validation.js`. -/
def UINT256_MAX : ℕ := 2 ^ 256 - 1

/-- Base-10 digit-string to natural number (what `BigInt` does on a
string that matched `/^\d+$/`). -/
def digitsToNat (s : String) : ℕ :=
  s.data.foldl (fun a c => a * 10 + (c.toNat - 48)) 0

/-- `parseAgentIdParam(rawAgentId)` from `server/validation.js`. -/
def parseAgentIdParam (rawAgentId : String) : Except String ℕ :=
  if rawAgentId.length = 0 then .error "agentId is required"
  else if ¬ rawAgentId.toList.all Char.isDigit then
    .error "agentId must be a base-10 unsigned integer"
  else
    let agentId := digitsToNat rawAgentId
    if UINT256_MAX < agentId then .error "agentId exceeds uint256 range"
    else .ok agentId

/-- A JS error value as inspected by `src/agentkit/fallbacks.js`.
String fields hold `""` when absent; `code` is `some s` only when the
`code` property is the string `s`; `statusCode` is the HTTP status a
`buildHttpError` attached, when any. -/
structure JsError where
  name : String := ""
  code : Option String := none
  message : String := ""
  shortMessage : String := ""
  statusCode : Option ℚ := none
deriving Repr, DecidableEq

/-- `toErrorMessage(error)` from `src/agentkit/fallbacks.js`.  The
`String(error)` fallback for a message-less error object is abstracted
as the `name: message` rendering JS gives an `Error`. -/
def toErrorMessage (error : Option JsError) : String :=
  match error with
  | none => "Unknown error"
  | some err =>
      if err.message.trim ≠ "" then err.message.trim
      else err.name ++ ": " ++ err.message

/-- `isTimeoutError(error)` from `src/agentkit/fallbacks.js`. -/
def isTimeoutError (error : Option JsError) : Bool :=
  match error with
  | none => false
  | some err =>
      err.name = "AbortError" ∨ err.code = some "ABORT_ERR" ∨
        Js.containsSub (Js.lowerStr err.message) "timeout"

/-- `isRpcError(error)` from `src/agentkit/fallbacks.js` (the client's
own lightweight classifier, distinct from the indexer's). -/
def isRpcErrorClient (error : Option JsError) : Bool :=
  match error with
  | none => false
  | some err =>
      let normalized := Js.lowerStr (if err.message ≠ "" then err.message else err.shortMessage)
      Js.containsSub normalized "network" ∨ Js.containsSub normalized "socket" ∨
        Js.containsSub normalized "connect" ∨ Js.containsSub normalized "rpc"

/-- `isCallException(error)` from `src/agentkit/fallbacks.js`. -/
def isCallException (error : Option JsError) : Bool :=
  match error with
  | none => false
  | some err =>
      err.code = some "CALL_EXCEPTION" ∨
        Js.containsSub (Js.lowerStr err.message) "execution reverted" ∨
        Js.containsSub (Js.lowerStr err.shortMessage) "execution reverted"

/-- `mapApiFailure({statusCode, error})` from
`src/agentkit/fallbacks.js`.  A `none` status models a missing
`statusCode`, on which every numeric comparison is false. -/
def mapApiFailure (statusCode : Option ℚ) (error : Option JsError) : FallbackCode :=
  if statusCode = some 404 then .agent_not_found
  else if statusCode = some 402 then .payment_unavailable
  else if (match statusCode with | some s => decide (500 ≤ s) | none => false) then .oracle_unavailable
  else if isTimeoutError error then .api_timeout
  else .oracle_unavailable

/-- `mapContractFailure(error)` from `src/agentkit/fallbacks.js`. -/
def mapContractFailure (error : Option JsError) : FallbackCode :=
  if isCallException error then .agent_not_found
  else if isTimeoutError error ∨ isRpcErrorClient error then .rpc_unavailable
  else .oracle_unavailable

/-- The `data` payload attached to an envelope (the union of the
fields the client ever places there). -/
structure RespData where
  totalFeedback : Option ℚ := none
  positiveFeedback : Option ℚ := none
  recentTrend : Option String := none
  flagged : Option Bool := none
  riskFactors : List String := []
  negativeRateBps : Option ℚ := none
  lastUpdated : Option ℚ := none
  demo : Bool := false
  note : Option String := none
deriving Repr, DecidableEq

/-- The `error` object of an envelope. -/
structure ErrorInfo where
  code : FallbackCode
  message : String
deriving Repr, DecidableEq

/-- The structured response envelope.  The wall-clock `timestamp`
field is not modelled. -/
structure Envelope where
  status : Status
  agentId : Option String
  score : Option ℚ
  confidence : Option ℚ
  verdict : Verdict
  recommendation : Recommendation
  source : Source
  fallback : Option FallbackCode
  error : Option ErrorInfo
  timingMs : ℚ
  correlationId : String
  data : RespData
deriving Repr, DecidableEq

/-- The named arguments of `buildSuccessResponse` in
`src/agentkit/client.js`. -/
structure SuccessArgs where
  agentId : String
  score : Option ℚ := none
  confidence : Option ℚ := none
  source : Source
  timingMs : ℚ := 0
  correlationId : String
  status : Status := .ok
  fallback : Option FallbackCode := none
  error : Option ErrorInfo := none
  data : RespData := {}

/-- `toNumber(value)` on a value already modelled as `Option ℚ` is the
identity; `toNonNegativeNumber(value)` additionally rejects negatives. -/
def toNonNegativeNumber (value : Option ℚ) : Option ℚ :=
  match value with
  | none => none
  | some p => if p < 0 then none else some p

/-- `buildSuccessResponse({...})` from `src/agentkit/client.js`. -/
def buildSuccessResponse (a : SuccessArgs) : Envelope :=
  let normalizedScore := toNonNegativeNumber a.score
  let normalizedConfidence := clampConfidence a.confidence
  let hasNoHistory := normalizedScore = some 0 ∧
    ((toNonNegativeNumber a.data.totalFeedback = some 0 ∧
        toNonNegativeNumber a.data.positiveFeedback = some 0) ∨
      normalizedConfidence = some 0)
  let verdict := if hasNoHistory then Verdict.UNKNOWN else resolveVerdict normalizedScore
  { status := a.status
    agentId := some a.agentId
    score := normalizedScore
    confidence := normalizedConfidence
    verdict := verdict
    recommendation := resolveRecommendation verdict
    source := a.source
    fallback := a.fallback
    error := a.error
    timingMs := a.timingMs
    correlationId := a.correlationId
    data := a.data }

/-- The named arguments of `buildStructuredFailure` in
`src/agentkit/fallbacks.js`. -/
structure FailureArgs where
  agentId : Option String
  source : Source
  fallback : FallbackCode
  timingMs : ℚ := 0
  correlationId : String
  status : Status := .degraded
  message : Option String := none

/-- `message || fallback`: a missing or empty message falls back to
the code's own string. -/
def messageOr (message : Option String) (code : FallbackCode) : String :=
  match message with
  | some m => if m ≠ "" then m else fallbackCodeString code
  | none => fallbackCodeString code

/-- `buildStructuredFailure({...})` from `src/agentkit/fallbacks.js`.
The failure envelope carries no `data`; the empty payload stands for
the absent field. -/
def buildStructuredFailure (a : FailureArgs) : Envelope :=
  { status := a.status
    agentId := a.agentId
    score := none
    confidence := none
    verdict := .UNKNOWN
    recommendation := .manual_review
    source := a.source
    fallback := some a.fallback
    error := some { code := a.fallback, message := messageOr a.message a.fallback }
    timingMs := a.timingMs
    correlationId := a.correlationId
    data := {} }

/-- `withDegradedContext(response, fallbackCode, fallbackMessage)` from
`src/agentkit/fallbacks.js`. -/
def withDegradedContext (response : Envelope) (fallbackCode : FallbackCode)
    (fallbackMessage : String) : Envelope :=
  { response with
    status := .degraded
    fallback := some fallbackCode
    error := some { code := fallbackCode,
                    message := if fallbackMessage ≠ "" then fallbackMessage
                               else fallbackCodeString fallbackCode } }

/-- The client configuration fields `queryTrust` consults. -/
structure ClientConfig where
  defaultMode : Source
  allowDemoFallback : Bool
  allowOnchainFallback : Bool
deriving Repr, DecidableEq

/-- `resolveSequence(requestedMode, config, overrides)` from
`src/agentkit/client.js`. -/
def resolveSequence (requestedMode : Option Source) (config : ClientConfig)
    (ovDemo ovOnchain : Option Bool) : List Source :=
  let baseMode := requestedMode.getD config.defaultMode
  let allowDemoFallback := ovDemo.getD config.allowDemoFallback
  let allowOnchainFallback := ovOnchain.getD config.allowOnchainFallback
  if baseMode = .trustscore_contract then [.trustscore_contract]
  else if baseMode = .api_demo then
    [.api_demo] ++ (if allowOnchainFallback then [.trustscore_contract] else [])
  else
    [.api_paid] ++ (if allowDemoFallback then [.api_demo] else []) ++
      (if allowOnchainFallback then [.trustscore_contract] else [])

/-- The `{score, confidence, data}` record a successful `queryApi` /
`queryContract` attempt resolves with. -/
structure RawResult where
  score : Option ℚ := none
  confidence : Option ℚ := none
  data : RespData := {}
deriving Repr, DecidableEq

/-- The environment of one query: what each source attempt would
resolve with (success payload) or throw (a JS error). -/
def AttemptFn := Source → Except JsError RawResult

/-- The remembered `priorFailure` of the fallback loop. -/
structure PriorFailure where
  code : FallbackCode
  message : String
deriving Repr, DecidableEq

/-- The per-source classification step in `queryTrust`'s catch
branch. -/
def classifyFailure (source : Source) (e : JsError) : FallbackCode :=
  if source = .trustscore_contract then mapContractFailure (some e)
  else mapApiFailure e.statusCode (some e)

/-- The `for (const source of sequence)` loop of `queryTrust`:
either a response envelope (left) or the final `priorFailure` after
exhausting the sequence (right). -/
def attemptSources (attempt : AttemptFn) (agentId correlationId : String) :
    List Source → Option PriorFailure → Envelope ⊕ Option PriorFailure
  | [], prior => .inr prior
  | s :: rest, prior =>
      match attempt s with
      | .ok result =>
          let response := buildSuccessResponse
            { agentId := agentId, score := result.score, confidence := result.confidence
              source := s, timingMs := 0, correlationId := correlationId, data := result.data }
          .inl (match prior with
                | some p => withDegradedContext response p.code p.message
                | none => response)
      | .error e =>
          attemptSources attempt agentId correlationId rest
            (some { code := classifyFailure s e, message := toErrorMessage (some e) })

/-- `queryTrust(kind, rawAgentId, options)` from
`src/agentkit/client.js`.  The `kind` only affects which URL /
contract method the attempt hits, which is folded into `attempt`;
timing is not modelled (all `timingMs` are 0). -/
def queryTrust (attempt : AttemptFn) (config : ClientConfig) (rawAgentId : String)
    (mode : Option Source) (ovDemo ovOnchain : Option Bool)
    (correlationId : String) : Envelope :=
  let requestedMode := mode.getD config.defaultMode
  let sequence := resolveSequence (some requestedMode) config ovDemo ovOnchain
  match parseAgentIdParam rawAgentId with
  | .error msg =>
      buildStructuredFailure
        { agentId := some rawAgentId
          source := sequence.headD requestedMode
          fallback := .invalid_agent_id
          message := some msg
          timingMs := 0
          status := .error
          correlationId := correlationId }
  | .ok agentId =>
      let agentIdStr := Nat.repr agentId
      match attemptSources attempt agentIdStr correlationId sequence none with
      | .inl envelope => envelope
      | .inr prior =>
          buildStructuredFailure
            { agentId := some agentIdStr
              source := sequence.getLastD .api_paid
              fallback := (prior.map PriorFailure.code).getD .oracle_unavailable
              message := some
                (match prior with
                 | some p =>
                     if p.message ≠ "" then p.message
                     else "No available trust data source succeeded"
                 | none => "No available trust data source succeeded")
              timingMs := 0
              status := if prior.map PriorFailure.code = some FallbackCode.agent_not_found
                        then .error else .degraded
              correlationId := correlationId }

/-! #### Concrete trust-client scenarios -/

/-- A client configuration with both fallbacks enabled. -/
def fullChainConfig : ClientConfig :=
  { defaultMode := .api_paid, allowDemoFallback := true, allowOnchainFallback := true }

/-- A client configuration with only the on-chain fallback enabled. -/
def paidContractConfig : ClientConfig :=
  { defaultMode := .api_paid, allowDemoFallback := false, allowOnchainFallback := true }

/-- The contract-read success payload used by the concrete scenarios:
`{score: 800, totalFeedback: 80, positiveFeedback: 70}`. -/
def contractSuccess : RawResult :=
  { score := some 800, confidence := some 1
    data := { totalFeedback := some 80, positiveFeedback := some 70 } }

/-- Both API sources fail (402 then 500), the contract read succeeds. -/
def twoFailAttempt : AttemptFn := fun s =>
  match s with
  | .api_paid => .error { statusCode := some 402, message := "payment required" }
  | .api_demo => .error { statusCode := some 500, message := "upstream exploded" }
  | .trustscore_contract => .ok contractSuccess

/-- The paid API fails with HTTP 500, the contract read succeeds. -/
def oneFailAttempt : AttemptFn := fun s =>
  match s with
  | .api_paid => .error { statusCode := some 500, message := "upstream exploded" }
  | .api_demo => .error { statusCode := some 500, message := "upstream exploded" }
  | .trustscore_contract => .ok contractSuccess

end AgentKit

namespace Indexer

/-- A JS `code` property: a number or a string (or, via `Option`
around this type, absent/other). -/
inductive JsCode where
  | num (n : ℤ)
  | str (s : String)
deriving Repr, DecidableEq

/-- A JS error value as inspected by the indexer's `isRpcError`:
`code`, `message`, `shortMessage` (string fields hold `""` when
absent) and the nested `error` / `cause` objects.  Lean values are
finite trees, which faithfully covers the code's `!== error`
self-reference guards. -/
inductive RpcError where
  | mk (code : Option JsCode) (message : String) (shortMessage : String)
       (errField : Option RpcError) (causeField : Option RpcError)

/-- The nested `error` property. -/
def RpcError.errField : RpcError → Option RpcError
  | .mk _ _ _ f _ => f

/-- The nested `cause` property. -/
def RpcError.causeField : RpcError → Option RpcError
  | .mk _ _ _ _ c => c

/-- The retryable numeric codes `{-32000, -32005, -32603}`. -/
def retryNumericCodes : List ℤ := [-32000, -32005, -32603]

/-- The `knownCodes` string set of `isRpcError`. -/
def retryStringCodes : List String :=
  ["NETWORK_ERROR", "SERVER_ERROR", "TIMEOUT", "ECONNRESET", "ETIMEDOUT", "ENOTFOUND"]

/-- The `retryHints` message substrings of `isRpcError`. -/
def retryHints : List String :=
  ["timeout", "timed out", "429", "rate limit", "network error", "missing response",
   "temporarily unavailable", "socket hang up", "gateway timeout"]

/-- `isRpcError(error)` from `server/indexer.js`, on a non-null error
object. -/
def isRpcError : RpcError → Bool
  | .mk code message shortMessage errF causeF =>
      if (match code with
          | some (.num n) => decide (n ∈ retryNumericCodes)
          | _ => false) then true
      else if (match code with
          | some (.str s) => decide (s ∈ retryStringCodes)
          | _ => false) then true
      else if retryHints.any
          (fun tkn => Js.containsSub (Js.lowerStr (message ++ " " ++ shortMessage)) tkn) then true
      else
        match errF with
        | some inner => isRpcError inner
        | none =>
            match causeF with
            | some cause => isRpcError cause
            | none => false

/-- `isRpcError` lifted over the `if (!error) return false` guard. -/
def isRpcErrorOpt : Option RpcError → Bool
  | none => false
  | some e => isRpcError e

/-- The retryability conditions of one error object in isolation, as
the spec lists them (numeric code, string code, message substrings
over the concatenated `message`/`shortMessage` text). -/
def nodeRetryable (e : RpcError) : Bool :=
  match e with
  | .mk code message shortMessage _ _ =>
      ((match code with
        | some (.num n) => decide (n ∈ retryNumericCodes)
        | _ => false) ||
       (match code with
        | some (.str s) => decide (s ∈ retryStringCodes)
        | _ => false) ||
       retryHints.any
         (fun tkn => Js.containsSub (Js.lowerStr (message ++ " " ++ shortMessage)) tkn))

/-- The claim's reading of the conditions on a single error object:
only the `message` text is scanned for the hint substrings. -/
def nodeRetryableMsgOnly (e : RpcError) : Bool :=
  match e with
  | .mk code message _ _ _ =>
      ((match code with
        | some (.num n) => decide (n ∈ retryNumericCodes)
        | _ => false) ||
       (match code with
        | some (.str s) => decide (s ∈ retryStringCodes)
        | _ => false) ||
       retryHints.any (fun tkn => Js.containsSub (Js.lowerStr message) tkn))

/-- The claim as stated: the conditions hold for the error itself or
for its nested `cause`, examined one level deep. -/
def claimRetryableOneLevel (e : RpcError) : Bool :=
  nodeRetryableMsgOnly e ||
    (match e.causeField with
     | some c => nodeRetryableMsgOnly c
     | none => false)

/-- The chain of error objects `isRpcError` actually walks: itself,
then recursively the nested `error` object when present, otherwise the
nested `cause` object when present. -/
def retryChain : RpcError → List RpcError
  | .mk code message shortMessage errF causeF =>
      .mk code message shortMessage errF causeF ::
        (match errF with
         | some inner => retryChain inner
         | none =>
             match causeF with
             | some cause => retryChain cause
             | none => [])

/-- A raw pending-agent-id entry of a checkpoint file: either a value
`BigInt` converts to an integer `n`, or one it throws on. -/
inductive RawId where
  | int (n : ℤ)
  | invalid
deriving Repr, DecidableEq

/-- `normalizeAgentIdString(value)` from `server/indexer.js`: the
canonical decimal string of a non-negative integer (represented here
by the natural number itself), or `null`. -/
def normalizeAgentId : RawId → Option ℕ
  | .int n => if n < 0 then none else some n.toNat
  | .invalid => none

/-- A checkpoint file's JSON content before normalization.
`lastProcessedBlock` is `some q` when the field is the number `q`, and
`none` when it is absent, `null`, or not a number (all of which fail
`Number.isInteger`). -/
structure RawCheckpoint where
  lastProcessedBlock : Option ℚ := none
  pendingAgentIds : List RawId := []
deriving Repr, DecidableEq

/-- A normalized checkpoint. -/
structure Checkpoint where
  lastProcessedBlock : Option ℕ
  pendingAgentIds : List ℕ
deriving Repr, DecidableEq

/-- The sanitizing loop over `raw.pendingAgentIds`: drop entries that
do not normalize or repeat an already-seen id, preserving first-seen
order. -/
def normalizePending (seen : List ℕ) : List RawId → List ℕ
  | [] => []
  | id :: rest =>
      match normalizeAgentId id with
      | none => normalizePending seen rest
      | some n =>
          if n ∈ seen then normalizePending seen rest
          else n :: normalizePending (n :: seen) rest

/-- `normalizeCheckpoint(raw)` from `server/indexer.js`. -/
def normalizeCheckpoint (raw : RawCheckpoint) : Checkpoint :=
  { lastProcessedBlock :=
      match raw.lastProcessedBlock with
      | some q => if q.den = 1 ∧ 0 ≤ q then some q.num.toNat else none
      | none => none
    pendingAgentIds := normalizePending [] raw.pendingAgentIds }

/-- The checkpoint file's state: `none` when the file does not exist. -/
def CheckpointStore := Option RawCheckpoint

/-- `loadCheckpoint(path)`: a missing file reads as the zero
checkpoint, an existing file is parsed and normalized. -/
def loadCheckpoint : Option RawCheckpoint → Checkpoint
  | none => { lastProcessedBlock := none, pendingAgentIds := [] }
  | some raw => normalizeCheckpoint raw

/-- The JSON re-encoding of a normalized checkpoint, as read back. -/
def checkpointToRaw (c : Checkpoint) : RawCheckpoint :=
  { lastProcessedBlock := c.lastProcessedBlock.map (fun n => (n : ℚ))
    pendingAgentIds := c.pendingAgentIds.map (fun n : ℕ => .int (n : ℤ)) }

/-- `saveCheckpoint(path, checkpoint)`: normalize, serialize, atomic
rename — the store afterwards holds exactly the normalized content. -/
def saveCheckpoint (checkpoint : RawCheckpoint) : Option RawCheckpoint :=
  some (checkpointToRaw (normalizeCheckpoint checkpoint))

/-- One feedback log as the indexer consumes it: emission block, the
graded agent, and the `int128` feedback value. -/
structure FeedbackLog where
  blockNumber : ℕ
  agentId : ℕ
  value : ℤ
deriving Repr, DecidableEq

/-- The indexer configuration fields `runIndexerCycle` consults. -/
structure IndexerConfig where
  startBlock : ℕ
  maxBatchSize : ℕ
  scoringConfig : Scoring.ConfigInput
deriving Repr, DecidableEq

/-- The chain/RPC environment of one cycle.  Each operation yields the
outcome the retry harness eventually settles on: `ok` on (possibly
retried) success, `error` when a non-retryable error or retry
exhaustion aborts the cycle.  `getBlockTimestampSec` resolves `ok none`
for a missing block (`provider.getBlock` returning `null`). -/
structure ChainEnv where
  getBlockNumber : Except String ℕ
  queryLogs : ℕ → ℕ → Except String (List FeedbackLog)
  queryLogsForAgent : ℕ → ℕ → ℕ → Except String (List FeedbackLog)
  getBlockTimestampSec : ℕ → Except String (Option ℚ)
  submitBatch : List (ℕ × ℤ × ℕ × ℕ) → Except String String
  waitReceipt : String → Except String Unit

/-- `Array.from(set, BigInt).sort((a, b) => (a < b ? -1 : 1))`:
numeric ascending sort (the ids are pairwise distinct, coming out of a
`Set`). -/
def sortAsc (l : List ℕ) : List ℕ := List.insertionSort (· ≤ ·) l

/-- `new Set(...)` iteration: keep the first occurrence of each id. -/
def firstDedupAux (seen : List ℕ) : List ℕ → List ℕ
  | [] => []
  | x :: xs => if x ∈ seen then firstDedupAux seen xs else x :: firstDedupAux (x :: seen) xs

/-- First-seen deduplication of a list of agent ids. -/
def firstDedup (l : List ℕ) : List ℕ := firstDedupAux [] l

/-- `collectFeedbackForAgent({...})` from `server/indexer.js`: fetch
the agent's logs over `[fromBlock, toBlock]`, resolve each block's
timestamp (milliseconds = seconds × 1000; a missing block is fatal),
and shape `{isPositive: value > 0n, timestamp}` entries.  The
per-cycle timestamp memo is absorbed into `env.getBlockTimestampSec`
being a function. -/
def collectLoop (env : ChainEnv) : List FeedbackLog → Except String (List Scoring.Feedback)
  | [] => .ok []
  | log :: rest =>
      match env.getBlockTimestampSec log.blockNumber with
      | .error e => .error e
      | .ok none => .error "Missing block while processing feedback logs"
      | .ok (some tsSec) =>
          match collectLoop env rest with
          | .error e => .error e
          | .ok entries =>
              .ok ({ timestamp := some (.num (some (tsSec * 1000)))
                     isPositive := some (decide (0 < log.value)) } :: entries)

/-- `collectFeedbackForAgent({...})` continued: fetch the logs, then
run `collectLoop` over them. -/
def collectFeedbackForAgent (env : ChainEnv) (agentId fromBlock toBlock : ℕ) :
    Except String (List Scoring.Feedback) :=
  match env.queryLogsForAgent agentId fromBlock toBlock with
  | .error e => .error e
  | .ok logs => collectLoop env logs

/-- The `for (const agentId of agentsToProcess)` loop: per-agent scan
from the contract's `startBlock`, scoring at `nowMs`, accumulating the
`(agentId, score, totalFeedback, positiveFeedback)` batch rows. -/
def processAgents (env : ChainEnv) (cfg : IndexerConfig) (nowMs : ℚ) (latestBlock : ℕ) :
    List ℕ → Except String (List (ℕ × ℤ × ℕ × ℕ))
  | [] => .ok []
  | agentId :: rest =>
      match collectFeedbackForAgent env agentId cfg.startBlock latestBlock with
      | .error e => .error e
      | .ok feedbackEntries =>
          match Scoring.scoreFeedbackDetailed feedbackEntries cfg.scoringConfig nowMs with
          | .error e => .error e
          | .ok details =>
              match processAgents env cfg nowMs latestBlock rest with
              | .error e => .error e
              | .ok updates =>
                  .ok ((agentId, details.score, details.totalFeedback,
                        details.positiveFeedback) :: updates)

/-- The summary record `runIndexerCycle` returns. -/
structure CycleResult where
  fromBlock : ℕ
  latestBlock : ℕ
  newEventCount : ℕ
  dirtyAgentCount : ℕ
  processedAgentCount : ℕ
  queuedAgentCount : ℕ
  processedAgentIds : List ℕ
  queuedAgentIds : List ℕ
  txHashes : List String
deriving Repr, DecidableEq

/-- `runIndexerCycle(configOverrides, options)` from
`server/indexer.js`, as a function of the resolved configuration, the
chain environment, `nowMs` and the checkpoint-file state.  The second
component is the checkpoint-file state after the cycle: it changes
only through the single `saveCheckpoint` call at the end; any earlier
failure leaves the store untouched. -/
def runIndexerCycle (cfg : IndexerConfig) (env : ChainEnv) (nowMs : ℚ)
    (store : Option RawCheckpoint) : Except String CycleResult × Option RawCheckpoint :=
  let checkpoint := loadCheckpoint store
  let baselineLastProcessed := checkpoint.lastProcessedBlock.getD (max (cfg.startBlock - 1) 0)
  let fromBlock := baselineLastProcessed + 1
  match env.getBlockNumber with
  | .error e => (.error e, store)
  | .ok latestBlock =>
      match (if fromBlock ≤ latestBlock then env.queryLogs fromBlock latestBlock else .ok []) with
      | .error e => (.error e, store)
      | .ok newlyObservedLogs =>
          let dirtyAgentIds :=
            firstDedup (checkpoint.pendingAgentIds ++ newlyObservedLogs.map FeedbackLog.agentId)
          let sortedDirtyAgents := sortAsc dirtyAgentIds
          let agentsToProcess := sortedDirtyAgents.take cfg.maxBatchSize
          let queuedAgentIds := sortedDirtyAgents.drop cfg.maxBatchSize
          match processAgents env cfg nowMs latestBlock agentsToProcess with
          | .error e => (.error e, store)
          | .ok updates =>
              match (if 0 < updates.length then
                      match env.submitBatch updates with
                      | .error e => .error e
                      | .ok txHash =>
                          match env.waitReceipt txHash with
                          | .error e => .error e
                          | .ok _ => .ok [txHash]
                     else .ok [] : Except String (List String)) with
              | .error e => (.error e, store)
              | .ok txHashes =>
                  let store' := saveCheckpoint
                    { lastProcessedBlock := some ((latestBlock : ℚ))
                      pendingAgentIds := queuedAgentIds.map (fun n : ℕ => .int (n : ℤ)) }
                  (.ok { fromBlock := fromBlock
                         latestBlock := latestBlock
                         newEventCount := newlyObservedLogs.length
                         dirtyAgentCount := sortedDirtyAgents.length
                         processedAgentCount := updates.length
                         queuedAgentCount := queuedAgentIds.length
                         processedAgentIds := updates.map (fun u => u.1)
                         queuedAgentIds := queuedAgentIds
                         txHashes := txHashes }, store')

/-! #### Concrete indexer scenarios -/

/-- An error whose transient marker sits two `cause` levels deep. -/
def deepCauseError : RpcError :=
  .mk none "" "" none (some (.mk none "" "" none (some (.mk (some (.num (-32000))) "" "" none none))))

/-- An error carrying the marker only in its nested `error` property. -/
def errFieldOnlyError : RpcError :=
  .mk none "" "" (some (.mk (some (.str "ECONNRESET")) "" "" none none)) none

/-- Two feedback events, one per agent, in blocks 3 and 4. -/
def twoAgentLogs : List FeedbackLog :=
  [{ blockNumber := 3, agentId := 1, value := 1 },
   { blockNumber := 4, agentId := 2, value := 1 }]

/-- Chain state for the overflow scenario's first cycle: head at block
5, the two events above, every block timestamped 1699913600s. -/
def overflowEnv1 : ChainEnv :=
  { getBlockNumber := .ok 5
    queryLogs := fun _ _ => .ok twoAgentLogs
    queryLogsForAgent := fun agentId _ _ =>
      .ok (twoAgentLogs.filter (fun l => l.agentId = agentId))
    getBlockTimestampSec := fun _ => .ok (some 1699913600)
    submitBatch := fun _ => .ok "0xtx1"
    waitReceipt := fun _ => .ok () }

/-- Chain state for the second cycle: same head, no new events. -/
def overflowEnv2 : ChainEnv :=
  { getBlockNumber := .ok 5
    queryLogs := fun _ _ => .ok []
    queryLogsForAgent := fun agentId _ _ =>
      .ok (twoAgentLogs.filter (fun l => l.agentId = agentId))
    getBlockTimestampSec := fun _ => .ok (some 1699913600)
    submitBatch := fun _ => .ok "0xtx2"
    waitReceipt := fun _ => .ok () }

/-- A chain whose head read fails outright (after retries). -/
def headFailureEnv : ChainEnv :=
  { getBlockNumber := .error "network error: head unavailable"
    queryLogs := fun _ _ => .ok []
    queryLogsForAgent := fun _ _ _ => .ok []
    getBlockTimestampSec := fun _ => .ok (some 1699913600)
    submitBatch := fun _ => .ok "0xtx"
    waitReceipt := fun _ => .ok () }

/-- Indexer configuration for the overflow scenario:
`maxBatchSize = 1`, default scoring knobs, start block 0. -/
def overflowConfig : IndexerConfig :=
  { startBlock := 0, maxBatchSize := 1, scoringConfig := {} }

end Indexer

/-! ### Basic facts about the scoring helpers -/

namespace Scoring

theorem toPositiveNumber_pos (v : Option ℚ) (fb : ℚ) (hfb : 0 < fb) :
    0 < toPositiveNumber v fb := by
  cases v with
  | none => exact hfb
  | some q =>
      by_cases h : 0 < q <;> simp [toPositiveNumber, h, hfb]

theorem toPositiveInt_spec (v : Option ℚ) (fb : ℚ) (hden : fb.den = 1) (hfb : 0 < fb) :
    (toPositiveInt v fb).den = 1 ∧ 0 < toPositiveInt v fb := by
  cases v with
  | none => exact ⟨hden, hfb⟩
  | some q =>
      by_cases h : q.den = 1 ∧ 0 < q
      · simp [toPositiveInt, h]
      · simp [toPositiveInt, h, hden, hfb]

theorem toBps_bounds (v : Option ℚ) (fb : ℚ) (h0 : 0 ≤ fb) (h1 : fb ≤ 10000) :
    0 ≤ toBps v fb ∧ toBps v fb ≤ 10000 := by
  cases v with
  | none => exact ⟨h0, h1⟩
  | some q =>
      by_cases hden : q.den = 1
      · by_cases hneg : q < 0
        · simp [toBps, hden, hneg]
        · by_cases hbig : 10000 < q
          · simp [toBps, hden, hneg, hbig]
          · simp only [toBps, hden, if_true, if_neg hneg, if_neg hbig]
            exact ⟨le_of_not_lt hneg, le_of_not_lt hbig⟩
      · simp [toBps, hden, h0, h1]

theorem normalizeConfig_recentWeight_pos (i : ConfigInput) :
    0 < (normalizeConfig i).recentFeedbackWeight :=
  toPositiveNumber_pos _ _ (by norm_num [DEFAULT_SCORING_CONFIG])

theorem normalizeConfig_olderWeight_pos (i : ConfigInput) :
    0 < (normalizeConfig i).olderFeedbackWeight :=
  toPositiveNumber_pos _ _ (by norm_num [DEFAULT_SCORING_CONFIG])

theorem normalizeConfig_confMult_pos (i : ConfigInput) :
    0 < (normalizeConfig i).confidenceMultiplier :=
  toPositiveNumber_pos _ _ (by norm_num [DEFAULT_SCORING_CONFIG])

theorem normalizeConfig_flagMult_pos (i : ConfigInput) :
    0 < (normalizeConfig i).flaggedScoreMultiplier :=
  toPositiveNumber_pos _ _ (by norm_num [DEFAULT_SCORING_CONFIG])

theorem normalizeConfig_maxScore_spec (i : ConfigInput) :
    (normalizeConfig i).maxScore.den = 1 ∧ 0 < (normalizeConfig i).maxScore :=
  toPositiveInt_spec _ _ (by norm_num [DEFAULT_SCORING_CONFIG]) (by norm_num [DEFAULT_SCORING_CONFIG])

theorem jsRound_nonneg (x : ℚ) (hx : 0 ≤ x) : 0 ≤ jsRound x := by
  have : (0 : ℚ) ≤ x + 1/2 := by linarith
  simpa [jsRound] using Int.le_floor.mpr (by simpa using this)

theorem jsRound_mono {x y : ℚ} (h : x ≤ y) : jsRound x ≤ jsRound y :=
  Int.floor_mono (by linarith)

theorem jsRound_le_intQ {x M : ℚ} (hden : M.den = 1) (h : x ≤ M) :
    (jsRound x : ℚ) ≤ M := by
  have hM : (M.num : ℚ) = M := Rat.coe_int_num_of_den_eq_one hden
  have h1 : jsRound x ≤ ⌊(M.num : ℚ) + 1/2⌋ := Int.floor_mono (by rw [hM]; linarith)
  have h2 : ⌊(M.num : ℚ) + 1/2⌋ = M.num := by
    rw [Int.floor_int_add]
    norm_num
  have : jsRound x ≤ M.num := h1.trans_eq h2
  calc (jsRound x : ℚ) ≤ (M.num : ℚ) := by exact_mod_cast this
    _ = M := hM

theorem clamp_mem {v lo hi : ℚ} (h : lo ≤ hi) : lo ≤ clamp v lo hi ∧ clamp v lo hi ≤ hi :=
  ⟨le_min h (le_max_left _ _), min_le_left _ _⟩

theorem clamp_mono {v w lo hi : ℚ} (h : v ≤ w) : clamp v lo hi ≤ clamp w lo hi :=
  min_le_min le_rfl (max_le_max le_rfl h)

/-- The three projected scores of `finishScore` are rounded clamps into
`[0, maxScore]`, hence bounded, for any accumulator whatsoever. -/
theorem finishScore_bounds (cfg : ScoringConfig) (acc : Acc)
    (hden : cfg.maxScore.den = 1) (hpos : 0 < cfg.maxScore) :
    (0 ≤ (finishScore cfg acc).score ∧ ((finishScore cfg acc).score : ℚ) ≤ cfg.maxScore) ∧
    (0 ≤ (finishScore cfg acc).baseScore ∧ ((finishScore cfg acc).baseScore : ℚ) ≤ cfg.maxScore) ∧
    (0 ≤ (finishScore cfg acc).confidenceAdjustedScore ∧
      ((finishScore cfg acc).confidenceAdjustedScore : ℚ) ≤ cfg.maxScore) := by
  have hM : (0 : ℚ) ≤ cfg.maxScore := le_of_lt hpos
  have bound : ∀ raw : ℚ, 0 ≤ jsRound (clamp raw 0 cfg.maxScore) ∧
      (jsRound (clamp raw 0 cfg.maxScore) : ℚ) ≤ cfg.maxScore := by
    intro raw
    obtain ⟨hlo, hhi⟩ := clamp_mem (v := raw) hM
    exact ⟨jsRound_nonneg _ hlo, jsRound_le_intQ hden hhi⟩
  unfold finishScore
  by_cases hwt : acc.weightedTotal = 0
  · simp only [hwt, if_pos rfl, zeroResult]
    refine ⟨⟨le_refl 0, ?_⟩, ⟨le_refl 0, ?_⟩, ⟨le_refl 0, ?_⟩⟩ <;> simpa using hM
  · simp only [if_neg hwt]
    exact ⟨bound _, bound _, bound _⟩

/-- Inversion principle for `scoreFeedbackDetailed`: a successful run
is `finishScore` of a successful accumulation. -/
theorem scoreFeedbackDetailed_ok {feedbacks : List Feedback} {config : ConfigInput}
    {nowMs : ℚ} {r : ScoringResult}
    (h : scoreFeedbackDetailed feedbacks config nowMs = .ok r) :
    ∃ acc : Acc,
      scoreAccum (normalizeConfig config)
        (nowMs - (normalizeConfig config).decayWindowDays * DAY_MS)
        (nowMs - (normalizeConfig config).recentNegativeWindowDays * DAY_MS)
        feedbacks {} = .ok acc ∧
      r = finishScore (normalizeConfig config) acc := by
  simp only [scoreFeedbackDetailed] at h
  cases hacc : scoreAccum (normalizeConfig config)
      (nowMs - (normalizeConfig config).decayWindowDays * DAY_MS)
      (nowMs - (normalizeConfig config).recentNegativeWindowDays * DAY_MS) feedbacks {} with
  | error e => rw [hacc] at h; exact absurd h (by simp)
  | ok acc => rw [hacc] at h; exact ⟨acc, rfl, (Except.ok.inj h).symm⟩

/-- Every successful scoring run yields `score`, `baseScore` and
`confidenceAdjustedScore` within `[0, maxScore]` of the normalized
configuration. -/
theorem score_bounds_all {feedbacks : List Feedback} {config : ConfigInput}
    {nowMs : ℚ} {r : ScoringResult}
    (h : scoreFeedbackDetailed feedbacks config nowMs = .ok r) :
    (0 ≤ r.score ∧ (r.score : ℚ) ≤ (normalizeConfig config).maxScore) ∧
    (0 ≤ r.baseScore ∧ (r.baseScore : ℚ) ≤ (normalizeConfig config).maxScore) ∧
    (0 ≤ r.confidenceAdjustedScore ∧
      (r.confidenceAdjustedScore : ℚ) ≤ (normalizeConfig config).maxScore) := by
  obtain ⟨acc, -, hr⟩ := scoreFeedbackDetailed_ok h
  obtain ⟨hden, hpos⟩ := normalizeConfig_maxScore_spec config
  subst hr
  exact finishScore_bounds _ _ hden hpos

/-- The `flagged` output follows the strict-threshold rule on the
result's own `recentFeedbackCount` / `recentNegativeRateBps` fields. -/
theorem finishScore_flagged_iff (cfg : ScoringConfig) (acc : Acc) :
    (finishScore cfg acc).flagged = true ↔
      0 < (finishScore cfg acc).recentFeedbackCount ∧
        cfg.negativeFlagThresholdBps < ((finishScore cfg acc).recentNegativeRateBps : ℚ) := by
  unfold finishScore
  by_cases hwt : acc.weightedTotal = 0
  · simp [hwt, zeroResult]
  · simp [hwt]

/-- `recentNegativeRateBps` never exceeds 10000 when the accumulator's
negative count is bounded by its recent count. -/
theorem finishScore_rate_le (cfg : ScoringConfig) (acc : Acc)
    (h3 : acc.recentNegativeCount ≤ acc.recentFeedbackCount) :
    ((finishScore cfg acc).recentNegativeRateBps : ℚ) ≤ 10000 := by
  unfold finishScore
  by_cases hwt : acc.weightedTotal = 0
  · simp [hwt, zeroResult]
  · simp only [hwt, if_neg, if_false]
    by_cases hrc : acc.recentFeedbackCount = 0
    · simp [hrc]
    · have hden : ((10000 : ℚ)).den = 1 := rfl
      have hpos : (0 : ℚ) < (acc.recentFeedbackCount : ℚ) := by
        exact_mod_cast Nat.pos_of_ne_zero hrc
      have hratio : (acc.recentNegativeCount : ℚ) / (acc.recentFeedbackCount : ℚ) ≤ 1 :=
        (div_le_one hpos).mpr (by exact_mod_cast h3)
      have hle : (acc.recentNegativeCount : ℚ) / (acc.recentFeedbackCount : ℚ) * 10000 ≤ 10000 := by
        nlinarith
      simp only [hrc, if_false]
      exact jsRound_le_intQ hden hle

/-- Each step of the scoring loop preserves the accumulator invariant
`0 ≤ weightedPositive ≤ weightedTotal` and
`recentNegativeCount ≤ recentFeedbackCount`. -/
theorem stepAcc_inv (cfg : ScoringConfig) (dc nc t : ℚ) (p : Bool) (acc : Acc)
    (hrw : 0 < cfg.recentFeedbackWeight) (how : 0 < cfg.olderFeedbackWeight)
    (h1 : 0 ≤ acc.weightedPositive) (h2 : acc.weightedPositive ≤ acc.weightedTotal)
    (h3 : acc.recentNegativeCount ≤ acc.recentFeedbackCount) :
    0 ≤ (stepAcc cfg dc nc t p acc).weightedPositive ∧
    (stepAcc cfg dc nc t p acc).weightedPositive ≤ (stepAcc cfg dc nc t p acc).weightedTotal ∧
    (stepAcc cfg dc nc t p acc).recentNegativeCount ≤
      (stepAcc cfg dc nc t p acc).recentFeedbackCount := by
  have hw : 0 < (if dc ≤ t then cfg.recentFeedbackWeight else cfg.olderFeedbackWeight) := by
    split <;> assumption
  unfold stepAcc
  refine ⟨?_, ?_, ?_⟩
  · dsimp only; split <;> linarith
  · dsimp only; split <;> linarith
  · dsimp only
    split_ifs with ha hb <;> first
      | omega
      | exact absurd ha.1 hb

/-- The scoring loop preserves the accumulator invariant. -/
theorem scoreAccum_inv (cfg : ScoringConfig) (dc nc : ℚ)
    (hrw : 0 < cfg.recentFeedbackWeight) (how : 0 < cfg.olderFeedbackWeight)
    (fs : List Feedback) :
    ∀ acc acc', scoreAccum cfg dc nc fs acc = .ok acc' →
      0 ≤ acc.weightedPositive → acc.weightedPositive ≤ acc.weightedTotal →
      acc.recentNegativeCount ≤ acc.recentFeedbackCount →
      0 ≤ acc'.weightedPositive ∧ acc'.weightedPositive ≤ acc'.weightedTotal ∧
        acc'.recentNegativeCount ≤ acc'.recentFeedbackCount := by
  induction fs with
  | nil =>
      intro acc acc' h h1 h2 h3
      simp only [scoreAccum] at h
      cases h
      exact ⟨h1, h2, h3⟩
  | cons f rest ih =>
      intro acc acc' h h1 h2 h3
      simp only [scoreAccum] at h
      cases ht : parseFeedbackTimestampMs f with
      | error e => rw [ht] at h; exact absurd h (by simp)
      | ok t =>
          rw [ht] at h
          cases hp : parseFeedbackSentiment f with
          | error e => rw [hp] at h; exact absurd h (by simp)
          | ok p =>
              rw [hp] at h
              obtain ⟨g1, g2, g3⟩ := stepAcc_inv cfg dc nc t p acc hrw how h1 h2 h3
              exact ih _ _ h g1 g2 g3

/-- A positive entry leaves the recent-negative counter unchanged and
adds its weight to both weighted sums. -/
theorem stepAcc_positive (cfg : ScoringConfig) (dc nc t : ℚ) (acc : Acc) :
    stepAcc cfg dc nc t true acc =
      { weightedPositive := acc.weightedPositive +
          (if dc ≤ t then cfg.recentFeedbackWeight else cfg.olderFeedbackWeight)
        weightedTotal := acc.weightedTotal +
          (if dc ≤ t then cfg.recentFeedbackWeight else cfg.olderFeedbackWeight)
        totalFeedback := acc.totalFeedback + 1
        positiveFeedback := acc.positiveFeedback + 1
        recentFeedbackCount := acc.recentFeedbackCount + (if nc ≤ t then 1 else 0)
        recentNegativeCount := acc.recentNegativeCount } := by
  simp [stepAcc]

/-- Monotone step through the penalty pipeline: both multipliers are
applied (or not) identically on both sides. -/
theorem penalized_mono (cm fm : ℚ) (hcm : 0 < cm) (hfm : 0 < fm)
    (b b' : ℚ) (hb : b ≤ b') (ca ca' φ φ' : Prop)
    [Decidable ca] [Decidable ca'] [Decidable φ] [Decidable φ']
    (hca : ca ↔ ca') (hφ : φ ↔ φ') :
    (if φ then (if ca then b * cm else b) * fm else (if ca then b * cm else b)) ≤
    (if φ' then (if ca' then b' * cm else b') * fm else (if ca' then b' * cm else b')) := by
  have hadj : (if ca then b * cm else b) ≤ (if ca' then b' * cm else b') := by
    by_cases h : ca
    · rw [if_pos h, if_pos (hca.mp h)]
      exact mul_le_mul_of_nonneg_right hb hcm.le
    · rw [if_neg h, if_neg (fun h' => h (hca.mpr h'))]
      exact hb
  by_cases h : φ
  · rw [if_pos h, if_pos (hφ.mp h)]
    exact mul_le_mul_of_nonneg_right hadj hfm.le
  · rw [if_neg h, if_neg (fun h' => h (hφ.mpr h'))]
    exact hadj

/-- Splitting the scoring loop across a list append. -/
theorem scoreAccum_append (cfg : ScoringConfig) (dc nc : ℚ) (xs ys : List Feedback) :
    ∀ acc, scoreAccum cfg dc nc (xs ++ ys) acc =
      (scoreAccum cfg dc nc xs acc).bind (scoreAccum cfg dc nc ys) := by
  induction xs with
  | nil => intro acc; rfl
  | cons f rest ih =>
      intro acc
      simp only [List.cons_append, scoreAccum]
      cases parseFeedbackTimestampMs f with
      | error e => rfl
      | ok t =>
          cases parseFeedbackSentiment f with
          | error e => rfl
          | ok p => exact ih _

/-- Core of the (amended) monotonicity property: folding in one more
positive entry cannot lower the score, provided neither the `flagged`
nor the `confidenceApplied` output changes. -/
theorem finishScore_step_mono (cfg : ScoringConfig) (dc nc t : ℚ) (acc : Acc)
    (hrw : 0 < cfg.recentFeedbackWeight) (how : 0 < cfg.olderFeedbackWeight)
    (hcm : 0 < cfg.confidenceMultiplier) (hfm : 0 < cfg.flaggedScoreMultiplier)
    (hden : cfg.maxScore.den = 1) (hM : 0 < cfg.maxScore)
    (h1 : 0 ≤ acc.weightedPositive) (h2 : acc.weightedPositive ≤ acc.weightedTotal)
    (hflag : (finishScore cfg acc).flagged =
      (finishScore cfg (stepAcc cfg dc nc t true acc)).flagged)
    (hconf : (finishScore cfg acc).confidenceApplied =
      (finishScore cfg (stepAcc cfg dc nc t true acc)).confidenceApplied) :
    (finishScore cfg acc).score ≤ (finishScore cfg (stepAcc cfg dc nc t true acc)).score := by
  have hw : 0 < (if dc ≤ t then cfg.recentFeedbackWeight else cfg.olderFeedbackWeight) := by
    split <;> assumption
  by_cases hwt : acc.weightedTotal = 0
  · have hsc : (finishScore cfg acc).score = 0 := by simp [finishScore, hwt, zeroResult]
    rw [hsc]
    exact ((finishScore_bounds cfg _ hden hM).1).1
  · have hwtpos : 0 < acc.weightedTotal := lt_of_le_of_ne (h1.trans h2) (Ne.symm hwt)
    rw [stepAcc_positive] at hflag hconf ⊢
    set w := (if dc ≤ t then cfg.recentFeedbackWeight else cfg.olderFeedbackWeight) with hw_def
    have hwt2 : ¬(acc.weightedTotal + w = 0) := by positivity
    simp only [finishScore, hwt, hwt2, if_neg, if_false, decide_eq_decide] at hflag hconf ⊢
    apply jsRound_mono
    apply clamp_mono
    have hb : acc.weightedPositive / acc.weightedTotal * cfg.maxScore ≤
        (acc.weightedPositive + w) / (acc.weightedTotal + w) * cfg.maxScore := by
      apply mul_le_mul_of_nonneg_right _ hM.le
      rw [div_le_div_iff₀ hwtpos (by linarith)]
      nlinarith
    exact penalized_mono cfg.confidenceMultiplier cfg.flaggedScoreMultiplier hcm hfm _ _ hb
      _ _ _ _ hconf hflag

/-- Amended monotonicity at the level of `scoreFeedbackDetailed`:
appending one positive in-window entry never decreases the score when
`flagged` and `confidenceApplied` are unchanged. -/
theorem scoreFeedbackDetailed_append_positive_mono
    (config : ConfigInput) (nowMs : ℚ) (F : List Feedback) (e : Feedback) (te : ℚ)
    (r r' : ScoringResult)
    (hp : parseFeedbackSentiment e = .ok true)
    (ht : parseFeedbackTimestampMs e = .ok te)
    (hF : scoreFeedbackDetailed F config nowMs = .ok r)
    (hF' : scoreFeedbackDetailed (F ++ [e]) config nowMs = .ok r')
    (hflag : r.flagged = r'.flagged)
    (hconf : r.confidenceApplied = r'.confidenceApplied) :
    r.score ≤ r'.score := by
  obtain ⟨acc, hacc, hr⟩ := scoreFeedbackDetailed_ok hF
  obtain ⟨acc', hacc', hr'⟩ := scoreFeedbackDetailed_ok hF'
  set cfg := normalizeConfig config with hcfg
  set dc := nowMs - cfg.decayWindowDays * DAY_MS
  set nc := nowMs - cfg.recentNegativeWindowDays * DAY_MS
  have hsplit : scoreAccum cfg dc nc (F ++ [e]) {} =
      (scoreAccum cfg dc nc F {}).bind (scoreAccum cfg dc nc [e]) :=
    scoreAccum_append cfg dc nc F [e] {}
  rw [hacc] at hsplit
  have hsingle : scoreAccum cfg dc nc [e] acc = .ok (stepAcc cfg dc nc te true acc) := by
    simp only [scoreAccum, ht, hp]
  rw [hacc'] at hsplit
  have hacc'eq : acc' = stepAcc cfg dc nc te true acc := by
    have h2 : Except.ok (ε := String) acc' = scoreAccum cfg dc nc [e] acc := hsplit
    rw [hsingle] at h2
    exact Except.ok.inj h2.symm |>.symm
  obtain ⟨g1, g2, -⟩ := scoreAccum_inv cfg dc nc
    (normalizeConfig_recentWeight_pos config) (normalizeConfig_olderWeight_pos config)
    F {} acc hacc (le_refl 0) (le_refl 0) (le_refl 0)
  obtain ⟨hden, hM⟩ := normalizeConfig_maxScore_spec config
  subst hr hr' hacc'eq
  exact finishScore_step_mono cfg dc nc te acc
    (normalizeConfig_recentWeight_pos config) (normalizeConfig_olderWeight_pos config)
    (normalizeConfig_confMult_pos config) (normalizeConfig_flagMult_pos config)
    hden hM g1 g2 hflag hconf

end Scoring

/-! ### Facts about the trust client -/

namespace AgentKit

theorem toNonNegativeNumber_eq_some_zero (d : Option ℚ) :
    toNonNegativeNumber d = some 0 ↔ d = some 0 := by
  cases d with
  | none => simp [toNonNegativeNumber]
  | some p =>
      by_cases h : p < 0
      · simp only [toNonNegativeNumber, if_pos h]
        constructor
        · intro hc; exact absurd hc (by simp)
        · intro hc
          have hp0 : p = 0 := by injection hc
          exact absurd (hp0 ▸ h) (lt_irrefl 0)
      · simp [toNonNegativeNumber, h]

/-- The verdict/recommendation rules of `buildSuccessResponse`, stated
over the envelope's own fields. -/
theorem buildSuccessResponse_verdict_spec (a : SuccessArgs) :
    ((buildSuccessResponse a).score = none → (buildSuccessResponse a).verdict = .UNKNOWN) ∧
    ((buildSuccessResponse a).score = some 0 ∧
        (((buildSuccessResponse a).data.totalFeedback = some 0 ∧
            (buildSuccessResponse a).data.positiveFeedback = some 0) ∨
          (buildSuccessResponse a).confidence = some 0) →
      (buildSuccessResponse a).verdict = .UNKNOWN) ∧
    (∀ q, (buildSuccessResponse a).score = some q → 700 < q →
      (buildSuccessResponse a).verdict = .TRUSTED) ∧
    (∀ q, (buildSuccessResponse a).score = some q → 400 ≤ q → q ≤ 700 →
      (buildSuccessResponse a).verdict = .CAUTION) ∧
    (∀ q, (buildSuccessResponse a).score = some q → q < 400 →
      ¬((buildSuccessResponse a).score = some 0 ∧
        (((buildSuccessResponse a).data.totalFeedback = some 0 ∧
            (buildSuccessResponse a).data.positiveFeedback = some 0) ∨
          (buildSuccessResponse a).confidence = some 0)) →
      (buildSuccessResponse a).verdict = .DANGEROUS) := by
  simp only [buildSuccessResponse]
  constructor
  · intro hnone
    rw [hnone]
    split
    · rfl
    · rfl
  constructor
  · intro ⟨hz, hrest⟩
    rw [if_pos ?_]
    refine ⟨hz, ?_⟩
    rcases hrest with ⟨ht, hp⟩ | hc
    · exact Or.inl ⟨(toNonNegativeNumber_eq_some_zero _).mpr ht,
        (toNonNegativeNumber_eq_some_zero _).mpr hp⟩
    · exact Or.inr hc
  constructor
  · intro q hq h700
    have hnz : ¬(toNonNegativeNumber a.score = some 0 ∧
        ((toNonNegativeNumber a.data.totalFeedback = some 0 ∧
            toNonNegativeNumber a.data.positiveFeedback = some 0) ∨
          clampConfidence a.confidence = some 0)) := by
      rintro ⟨hz, -⟩
      rw [hq] at hz
      have : q = 0 := by injection hz
      linarith
    rw [if_neg hnz, hq]
    simp only [resolveVerdict, if_pos h700]
  constructor
  · intro q hq h400 h700
    have hnz : ¬(toNonNegativeNumber a.score = some 0 ∧
        ((toNonNegativeNumber a.data.totalFeedback = some 0 ∧
            toNonNegativeNumber a.data.positiveFeedback = some 0) ∨
          clampConfidence a.confidence = some 0)) := by
      rintro ⟨hz, -⟩
      rw [hq] at hz
      have : q = 0 := by injection hz
      linarith
    rw [if_neg hnz, hq]
    simp only [resolveVerdict]
    rw [if_neg (by linarith), if_pos h400]
  · intro q hq h400 hnosp
    have hnz : ¬(toNonNegativeNumber a.score = some 0 ∧
        ((toNonNegativeNumber a.data.totalFeedback = some 0 ∧
            toNonNegativeNumber a.data.positiveFeedback = some 0) ∨
          clampConfidence a.confidence = some 0)) := by
      rintro ⟨hz, hrest⟩
      refine hnosp ⟨hz, ?_⟩
      rcases hrest with ⟨ht, hp⟩ | hc
      · exact Or.inl ⟨(toNonNegativeNumber_eq_some_zero _).mp ht,
          (toNonNegativeNumber_eq_some_zero _).mp hp⟩
      · exact Or.inr hc
    rw [if_neg hnz, hq]
    simp only [resolveVerdict]
    rw [if_neg (by linarith), if_neg (by linarith)]

/-- The recommendation mapping, case by case. -/
theorem resolveRecommendation_spec :
    resolveRecommendation .TRUSTED = .proceed ∧
    resolveRecommendation .CAUTION = .manual_review ∧
    resolveRecommendation .UNKNOWN = .manual_review ∧
    resolveRecommendation .DANGEROUS = .abort := by
  refine ⟨rfl, rfl, rfl, rfl⟩

/-- Walking the source loop across a failing prefix `gs`, a final
failure `f` and the first success `s`: the envelope is the degraded
success response carrying the classification of `f` — the latest
failure, whatever failed earlier. -/
theorem attemptSources_last_failure (attempt : AttemptFn) (aid corr : String)
    (gs : List Source) (f s : Source) (ss₂ : List Source) (e : JsError) (res : RawResult)
    (hgs : ∀ g ∈ gs, ∃ e', attempt g = .error e')
    (hf : attempt f = .error e)
    (hs : attempt s = .ok res) :
    ∀ prior, attemptSources attempt aid corr (gs ++ f :: s :: ss₂) prior =
      .inl (withDegradedContext
        (buildSuccessResponse
          { agentId := aid, score := res.score, confidence := res.confidence
            source := s, timingMs := 0, correlationId := corr, data := res.data })
        (classifyFailure f e) (toErrorMessage (some e))) := by
  induction gs with
  | nil =>
      intro prior
      simp only [List.nil_append, attemptSources, hf, hs]
  | cons g rest ih =>
      intro prior
      obtain ⟨e', he'⟩ := hgs g (by simp)
      simp only [List.cons_append, attemptSources, he']
      exact ih (fun g' hg' => hgs g' (by simp [hg'])) _

end AgentKit

/-! ### Facts about the indexer -/

namespace Indexer

/-- An if-chain of three early `true` returns collapses to a
disjunction. -/
theorem ifchain_eq_or (b1 b2 b3 x : Bool) :
    (if b1 then true else if b2 then true else if b3 then true else x) =
      ((b1 || b2 || b3) || x) := by
  cases b1 <;> cases b2 <;> cases b3 <;> simp

/-- `isRpcError` is exactly: some error object along the
`error`-else-`cause` chain satisfies the node-level retryability
conditions. -/
theorem isRpcError_eq_chain : ∀ e : RpcError, isRpcError e = (retryChain e).any nodeRetryable
  | .mk code message shortMessage (some inner) causeF => by
      simp only [isRpcError, retryChain, List.any_cons, nodeRetryable]
      rw [isRpcError_eq_chain inner]
      exact ifchain_eq_or _ _ _ _
  | .mk code message shortMessage none (some cause) => by
      simp only [isRpcError, retryChain, List.any_cons, nodeRetryable]
      rw [isRpcError_eq_chain cause]
      exact ifchain_eq_or _ _ _ _
  | .mk code message shortMessage none none => by
      simp only [isRpcError, retryChain, List.any_cons, List.any_nil, nodeRetryable]
      rw [ifchain_eq_or]

/-- Membership in the sanitizing dedup loop. -/
theorem firstDedupAux_mem (l : List ℕ) : ∀ (seen : List ℕ) (x : ℕ),
    x ∈ firstDedupAux seen l ↔ (x ∈ l ∧ x ∉ seen) := by
  induction l with
  | nil => intro seen x; simp [firstDedupAux]
  | cons y ys ih =>
      intro seen x
      by_cases hy : y ∈ seen
      · rw [firstDedupAux, if_pos hy, ih]
        constructor
        · rintro ⟨h1, h2⟩
          exact ⟨List.mem_cons_of_mem _ h1, h2⟩
        · rintro ⟨h1, h2⟩
          rcases List.mem_cons.mp h1 with rfl | h1
          · exact absurd hy h2
          · exact ⟨h1, h2⟩
      · rw [firstDedupAux, if_neg hy]
        rw [List.mem_cons, ih]
        constructor
        · rintro (rfl | ⟨h1, h2⟩)
          · exact ⟨List.mem_cons_self _ _, hy⟩
          · exact ⟨List.mem_cons_of_mem _ h1,
              fun hseen => h2 (List.mem_cons_of_mem _ hseen)⟩
        · rintro ⟨h1, h2⟩
          rcases List.mem_cons.mp h1 with rfl | h1
          · exact Or.inl rfl
          · by_cases hxy : x = y
            · exact Or.inl hxy
            · right
              refine ⟨h1, fun hmem => ?_⟩
              rcases List.mem_cons.mp hmem with h | h
              · exact hxy h
              · exact h2 h

/-- The dedup loop yields a duplicate-free list. -/
theorem firstDedupAux_nodup (l : List ℕ) : ∀ seen : List ℕ, (firstDedupAux seen l).Nodup := by
  induction l with
  | nil => intro seen; simp [firstDedupAux]
  | cons y ys ih =>
      intro seen
      by_cases hy : y ∈ seen
      · rw [firstDedupAux, if_pos hy]; exact ih seen
      · rw [firstDedupAux, if_neg hy]
        refine List.nodup_cons.mpr ⟨?_, ih (y :: seen)⟩
        intro hmem
        exact ((firstDedupAux_mem ys (y :: seen) y).mp hmem).2 (List.mem_cons_self y seen)

/-- The dedup loop is the identity on a duplicate-free list disjoint
from `seen`. -/
theorem firstDedupAux_of_nodup (l : List ℕ) : ∀ seen : List ℕ,
    l.Nodup → (∀ x ∈ l, x ∉ seen) → firstDedupAux seen l = l := by
  induction l with
  | nil => intro seen _ _; rfl
  | cons y ys ih =>
      intro seen hnd hdisj
      have hy : y ∉ seen := hdisj y (List.mem_cons_self y ys)
      have hdisj2 : ∀ x ∈ ys, x ∉ y :: seen := by
        intro x hx hmem
        rcases List.mem_cons.mp hmem with rfl | hxseen
        · exact (List.nodup_cons.mp hnd).1 hx
        · exact hdisj x (List.mem_cons_of_mem _ hx) hxseen
      rw [firstDedupAux, if_neg hy, ih (y :: seen) (List.nodup_cons.mp hnd).2 hdisj2]

theorem firstDedup_mem (l : List ℕ) (x : ℕ) : x ∈ firstDedup l ↔ x ∈ l := by
  rw [firstDedup, firstDedupAux_mem]
  simp

theorem firstDedup_nodup (l : List ℕ) : (firstDedup l).Nodup := firstDedupAux_nodup l []

theorem firstDedup_of_nodup {l : List ℕ} (h : l.Nodup) : firstDedup l = l :=
  firstDedupAux_of_nodup l [] h (by simp)

theorem sortAsc_mem (l : List ℕ) (x : ℕ) : x ∈ sortAsc l ↔ x ∈ l :=
  List.mem_insertionSort _

theorem sortAsc_sorted (l : List ℕ) : List.Sorted (· ≤ ·) (sortAsc l) :=
  List.sorted_insertionSort _ l

theorem sortAsc_nodup {l : List ℕ} (h : l.Nodup) : (sortAsc l).Nodup :=
  ((List.perm_insertionSort _ l).nodup_iff).mpr h

theorem sortAsc_sorted_lt {l : List ℕ} (h : l.Nodup) : List.Sorted (· < ·) (sortAsc l) :=
  List.Sorted.lt_of_le (sortAsc_sorted l) (sortAsc_nodup h)

theorem sortAsc_length (l : List ℕ) : (sortAsc l).length = l.length :=
  List.length_insertionSort _ l

/-- `normalizePending` yields a duplicate-free list disjoint from
`seen`. -/
theorem normalizePending_nodup_disj (raw : List RawId) : ∀ seen : List ℕ,
    (normalizePending seen raw).Nodup ∧ ∀ x ∈ normalizePending seen raw, x ∉ seen := by
  induction raw with
  | nil => intro seen; simp [normalizePending]
  | cons id rest ih =>
      intro seen
      rw [normalizePending]
      cases hnid : normalizeAgentId id with
      | none => exact ih seen
      | some n =>
          by_cases hn : n ∈ seen
          · simpa [hn] using ih seen
          · simp only [hn, if_false]
            obtain ⟨ihn, ihd⟩ := ih (n :: seen)
            refine ⟨List.nodup_cons.mpr ⟨?_, ihn⟩, ?_⟩
            · intro hmem
              exact ihd n hmem (List.mem_cons_self n seen)
            · intro x hx
              rcases List.mem_cons.mp hx with rfl | hx
              · exact hn
              · intro hseen
                exact ihd x hx (List.mem_cons_of_mem _ hseen)

/-- `normalizePending` is the identity on re-encoded duplicate-free
ids. -/
theorem normalizePending_map_int (l : List ℕ) : ∀ seen : List ℕ,
    l.Nodup → (∀ x ∈ l, x ∉ seen) →
    normalizePending seen (l.map (fun n : ℕ => RawId.int (n : ℤ))) = l := by
  induction l with
  | nil => intro seen _ _; rfl
  | cons y ys ih =>
      intro seen hnd hdisj
      have hy : y ∉ seen := hdisj y (List.mem_cons_self y ys)
      have hnid : normalizeAgentId (RawId.int (y : ℤ)) = some y := by
        simp [normalizeAgentId]
      simp only [List.map_cons, normalizePending, hnid, hy, if_false]
      rw [ih (y :: seen) (List.nodup_cons.mp hnd).2]
      intro x hx hmem
      rcases List.mem_cons.mp hmem with rfl | hxseen
      · exact (List.nodup_cons.mp hnd).1 hx
      · exact hdisj x (List.mem_cons_of_mem _ hx) hxseen

/-- Re-normalizing a normalized checkpoint changes nothing:
`normalize (encode (normalize raw)) = normalize raw`. -/
theorem normalizeCheckpoint_roundtrip (raw : RawCheckpoint) :
    normalizeCheckpoint (checkpointToRaw (normalizeCheckpoint raw)) = normalizeCheckpoint raw := by
  unfold normalizeCheckpoint checkpointToRaw
  refine congrArg₂ Checkpoint.mk ?_ ?_
  · cases hlb : raw.lastProcessedBlock with
    | none => simp
    | some q =>
        by_cases hq : q.den = 1 ∧ 0 ≤ q
        · have hnum : 0 ≤ q.num := Rat.num_nonneg.mpr hq.2
          simp only [hq, if_true, Option.map_some]
          simp
          omega
        · simp [hq]
  · exact normalizePending_map_int _ [] (normalizePending_nodup_disj raw.pendingAgentIds []).1
      (by simp)

/-- A successful `processAgents` run returns one update row per
requested agent, in order. -/
theorem processAgents_map_fst (env : ChainEnv) (cfg : IndexerConfig) (nowMs : ℚ)
    (latestBlock : ℕ) : ∀ (l : List ℕ) (updates : List (ℕ × ℤ × ℕ × ℕ)),
    processAgents env cfg nowMs latestBlock l = .ok updates →
    updates.map (fun u => u.1) = l := by
  intro l
  induction l with
  | nil =>
      intro updates h
      simp only [processAgents] at h
      cases h
      rfl
  | cons agentId rest ih =>
      intro updates h
      simp only [processAgents] at h
      rcases hc : collectFeedbackForAgent env agentId cfg.startBlock latestBlock with e | entries
      · simp only [hc] at h
        exact absurd h (by simp)
      · simp only [hc] at h
        rcases hs : Scoring.scoreFeedbackDetailed entries cfg.scoringConfig nowMs with e | details
        · simp only [hs] at h
          exact absurd h (by simp)
        · simp only [hs] at h
          rcases hr : processAgents env cfg nowMs latestBlock rest with e | updates'
          · simp only [hr] at h
            exact absurd h (by simp)
          · simp only [hr, Except.ok.injEq] at h
            subst h
            simp only [List.map_cons]
            rw [ih updates' hr]

/-- Any cycle failure leaves the checkpoint file untouched: the single
write happens only after every fallible step has succeeded. -/
theorem runIndexerCycle_error_store (cfg : IndexerConfig) (env : ChainEnv) (nowMs : ℚ)
    (store : Option RawCheckpoint) (err : String)
    (h : (runIndexerCycle cfg env nowMs store).1 = .error err) :
    (runIndexerCycle cfg env nowMs store).2 = store := by
  unfold runIndexerCycle at h ⊢
  rcases hbn : env.getBlockNumber with e | latestBlock
  · simp only [hbn]
  · simp only [hbn] at h ⊢
    rcases hscan : (if (loadCheckpoint store).lastProcessedBlock.getD (max (cfg.startBlock - 1) 0) + 1 ≤ latestBlock
        then env.queryLogs ((loadCheckpoint store).lastProcessedBlock.getD (max (cfg.startBlock - 1) 0) + 1) latestBlock
        else .ok []) with e | logs
    · simp only [hscan]
    · simp only [hscan] at h ⊢
      rcases hproc : processAgents env cfg nowMs latestBlock
          ((sortAsc (firstDedup ((loadCheckpoint store).pendingAgentIds ++
            logs.map FeedbackLog.agentId))).take cfg.maxBatchSize) with e | updates
      · simp only [hproc]
      · simp only [hproc] at h ⊢
        rcases hsub : (if 0 < updates.length then
              match env.submitBatch updates with
              | .error e => .error e
              | .ok txHash =>
                  match env.waitReceipt txHash with
                  | .error e => .error e
                  | .ok _ => .ok [txHash]
             else .ok [] : Except String (List String)) with e | txHashes
        · simp only [hsub]
        · simp only [hsub] at h
          exact absurd h (by simp)

/-- Inversion of a successful cycle: the head, scan, batch and final
store are exactly the pipeline of the definition. -/
theorem runIndexerCycle_ok_inv {cfg : IndexerConfig} {env : ChainEnv} {nowMs : ℚ}
    {store : Option RawCheckpoint} {res : CycleResult} {store' : Option RawCheckpoint}
    (h : runIndexerCycle cfg env nowMs store = (.ok res, store')) :
    ∃ (latestBlock : ℕ) (logs : List FeedbackLog) (updates : List (ℕ × ℤ × ℕ × ℕ)),
      env.getBlockNumber = .ok latestBlock ∧
      (if (loadCheckpoint store).lastProcessedBlock.getD (max (cfg.startBlock - 1) 0) + 1 ≤ latestBlock
       then env.queryLogs ((loadCheckpoint store).lastProcessedBlock.getD (max (cfg.startBlock - 1) 0) + 1) latestBlock
       else .ok []) = .ok logs ∧
      processAgents env cfg nowMs latestBlock
        ((sortAsc (firstDedup ((loadCheckpoint store).pendingAgentIds ++
          logs.map FeedbackLog.agentId))).take cfg.maxBatchSize) = .ok updates ∧
      res.latestBlock = latestBlock ∧
      res.processedAgentIds = updates.map (fun u => u.1) ∧
      res.queuedAgentIds = (sortAsc (firstDedup ((loadCheckpoint store).pendingAgentIds ++
        logs.map FeedbackLog.agentId))).drop cfg.maxBatchSize ∧
      res.dirtyAgentCount = (sortAsc (firstDedup ((loadCheckpoint store).pendingAgentIds ++
        logs.map FeedbackLog.agentId))).length ∧
      res.processedAgentCount = updates.length ∧
      res.queuedAgentCount = res.queuedAgentIds.length ∧
      store' = saveCheckpoint
        { lastProcessedBlock := some ((latestBlock : ℚ))
          pendingAgentIds := ((sortAsc (firstDedup ((loadCheckpoint store).pendingAgentIds ++
            logs.map FeedbackLog.agentId))).drop cfg.maxBatchSize).map
              (fun n : ℕ => .int (n : ℤ)) } := by
  unfold runIndexerCycle at h
  rcases hbn : env.getBlockNumber with e | latestBlock
  · simp only [hbn] at h
    exact absurd h (by simp)
  · simp only [hbn] at h
    rcases hscan : (if (loadCheckpoint store).lastProcessedBlock.getD (max (cfg.startBlock - 1) 0) + 1 ≤ latestBlock
        then env.queryLogs ((loadCheckpoint store).lastProcessedBlock.getD (max (cfg.startBlock - 1) 0) + 1) latestBlock
        else .ok []) with e | logs
    · simp only [hscan] at h
      exact absurd h (by simp)
    · simp only [hscan] at h
      rcases hproc : processAgents env cfg nowMs latestBlock
          ((sortAsc (firstDedup ((loadCheckpoint store).pendingAgentIds ++
            logs.map FeedbackLog.agentId))).take cfg.maxBatchSize) with e | updates
      · simp only [hproc] at h
        exact absurd h (by simp)
      · simp only [hproc] at h
        rcases hsub : (if 0 < updates.length then
              match env.submitBatch updates with
              | .error e => .error e
              | .ok txHash =>
                  match env.waitReceipt txHash with
                  | .error e => .error e
                  | .ok _ => .ok [txHash]
             else .ok [] : Except String (List String)) with e | txHashes
        · simp only [hsub] at h
          exact absurd h (by simp)
        · simp only [hsub] at h
          rw [Prod.mk.injEq] at h
          obtain ⟨h1, h2⟩ := h
          refine ⟨latestBlock, logs, updates, rfl, hscan, hproc, ?_⟩
          rw [← Except.ok.inj h1]
          exact ⟨rfl, rfl, rfl, rfl, rfl, rfl, h2.symm⟩

end Indexer

/-! ### Concrete evaluations -/

namespace Scoring

/-- Shorthand for the simp set that evaluates the scoring pipeline on
concrete inputs. -/
theorem flagging_eval :
    scoreFeedbackDetailed flaggingFeedbacks flaggingConfig sampleNowMs = .ok flaggingExpected := by
  norm_num [scoreFeedbackDetailed, scoreAccum, parseFeedbackTimestampMs, parseFeedbackSentiment,
    flaggingFeedbacks, samplePositive, sampleNegative, flaggingConfig, sampleNowMs, sampleDayAgoMs,
    normalizeConfig, toPositiveInt, toPositiveNumber, toBps, DEFAULT_SCORING_CONFIG, stepAcc,
    finishScore, jsRound, clamp, zeroResult, flaggingExpected, DAY_MS]

theorem highThreshold_eval :
    scoreFeedbackDetailed flaggingFeedbacks highThresholdConfig sampleNowMs =
      .ok highThresholdExpected := by
  norm_num [scoreFeedbackDetailed, scoreAccum, parseFeedbackTimestampMs, parseFeedbackSentiment,
    flaggingFeedbacks, samplePositive, sampleNegative, highThresholdConfig, sampleNowMs,
    sampleDayAgoMs, normalizeConfig, toPositiveInt, toPositiveNumber, toBps,
    DEFAULT_SCORING_CONFIG, stepAcc, finishScore, jsRound, clamp, zeroResult,
    highThresholdExpected, DAY_MS]

theorem shrink_eval_one :
    scoreFeedbackDetailed [samplePositive] shrinkConfig sampleNowMs = .ok shrinkResultOne := by
  norm_num [scoreFeedbackDetailed, scoreAccum, parseFeedbackTimestampMs, parseFeedbackSentiment,
    samplePositive, shrinkConfig, sampleNowMs, sampleDayAgoMs, normalizeConfig, toPositiveInt,
    toPositiveNumber, toBps, DEFAULT_SCORING_CONFIG, stepAcc, finishScore, jsRound, clamp,
    zeroResult, shrinkResultOne, DAY_MS]

theorem shrink_eval_two :
    scoreFeedbackDetailed [samplePositive, samplePositive] shrinkConfig sampleNowMs =
      .ok shrinkResultTwo := by
  norm_num [scoreFeedbackDetailed, scoreAccum, parseFeedbackTimestampMs, parseFeedbackSentiment,
    samplePositive, shrinkConfig, sampleNowMs, sampleDayAgoMs, normalizeConfig, toPositiveInt,
    toPositiveNumber, toBps, DEFAULT_SCORING_CONFIG, stepAcc, finishScore, jsRound, clamp,
    zeroResult, shrinkResultTwo, DAY_MS]

theorem default_eval_one :
    scoreFeedbackDetailed [samplePositive] {} sampleNowMs = .ok defaultResultOne := by
  norm_num [scoreFeedbackDetailed, scoreAccum, parseFeedbackTimestampMs, parseFeedbackSentiment,
    samplePositive, sampleNowMs, sampleDayAgoMs, normalizeConfig, toPositiveInt,
    toPositiveNumber, toBps, DEFAULT_SCORING_CONFIG, stepAcc, finishScore, jsRound, clamp,
    zeroResult, defaultResultOne, DAY_MS]

theorem default_eval_two :
    scoreFeedbackDetailed [samplePositive, samplePositive] {} sampleNowMs =
      .ok defaultResultTwo := by
  norm_num [scoreFeedbackDetailed, scoreAccum, parseFeedbackTimestampMs, parseFeedbackSentiment,
    samplePositive, sampleNowMs, sampleDayAgoMs, normalizeConfig, toPositiveInt,
    toPositiveNumber, toBps, DEFAULT_SCORING_CONFIG, stepAcc, finishScore, jsRound, clamp,
    zeroResult, defaultResultTwo, DAY_MS]

theorem samplePositive_sentiment : parseFeedbackSentiment samplePositive = .ok true := rfl

theorem samplePositive_timestamp :
    parseFeedbackTimestampMs samplePositive = .ok sampleDayAgoMs := by
  norm_num [parseFeedbackTimestampMs, samplePositive, sampleDayAgoMs]

end Scoring

namespace Indexer

/-- First overflow cycle: two dirty agents, batch cap 1 — agent 1 is
processed, agent 2 queued, the checkpoint holds the pending id. -/
theorem overflow_cycle_one :
    runIndexerCycle overflowConfig overflowEnv1 Scoring.sampleNowMs none =
      (.ok { fromBlock := 1, latestBlock := 5, newEventCount := 2, dirtyAgentCount := 2
             processedAgentCount := 1, queuedAgentCount := 1, processedAgentIds := [1]
             queuedAgentIds := [2], txHashes := ["0xtx1"] },
       some { lastProcessedBlock := some 5, pendingAgentIds := [.int 2] }) := by
  norm_num [runIndexerCycle, loadCheckpoint, normalizeCheckpoint, normalizePending,
    normalizeAgentId, saveCheckpoint, checkpointToRaw, overflowEnv1, overflowConfig,
    twoAgentLogs, firstDedup, firstDedupAux, sortAsc, List.insertionSort, List.orderedInsert,
    processAgents, collectFeedbackForAgent, collectLoop, List.filter,
    Scoring.scoreFeedbackDetailed, Scoring.scoreAccum, Scoring.parseFeedbackTimestampMs,
    Scoring.parseFeedbackSentiment, Scoring.normalizeConfig, Scoring.toPositiveInt,
    Scoring.toPositiveNumber, Scoring.toBps, Scoring.DEFAULT_SCORING_CONFIG, Scoring.stepAcc,
    Scoring.finishScore, Scoring.jsRound, Scoring.clamp, Scoring.zeroResult, Scoring.DAY_MS,
    Scoring.sampleNowMs, show Int.toNat 5 = 5 from rfl, show Int.toNat 2 = 2 from rfl]

/-- Second overflow cycle: no new events; the queued agent 2 is
processed and nothing is left pending. -/
theorem overflow_cycle_two :
    runIndexerCycle overflowConfig overflowEnv2 Scoring.sampleNowMs
        (some { lastProcessedBlock := some 5, pendingAgentIds := [.int 2] }) =
      (.ok { fromBlock := 6, latestBlock := 5, newEventCount := 0, dirtyAgentCount := 1
             processedAgentCount := 1, queuedAgentCount := 0, processedAgentIds := [2]
             queuedAgentIds := [], txHashes := ["0xtx2"] },
       some { lastProcessedBlock := some 5, pendingAgentIds := [] }) := by
  norm_num [runIndexerCycle, loadCheckpoint, normalizeCheckpoint, normalizePending,
    normalizeAgentId, saveCheckpoint, checkpointToRaw, overflowEnv2, overflowConfig,
    twoAgentLogs, firstDedup, firstDedupAux, sortAsc, List.insertionSort, List.orderedInsert,
    processAgents, collectFeedbackForAgent, collectLoop, List.filter,
    Scoring.scoreFeedbackDetailed, Scoring.scoreAccum, Scoring.parseFeedbackTimestampMs,
    Scoring.parseFeedbackSentiment, Scoring.normalizeConfig, Scoring.toPositiveInt,
    Scoring.toPositiveNumber, Scoring.toBps, Scoring.DEFAULT_SCORING_CONFIG, Scoring.stepAcc,
    Scoring.finishScore, Scoring.jsRound, Scoring.clamp, Scoring.zeroResult, Scoring.DAY_MS,
    Scoring.sampleNowMs, show Int.toNat 5 = 5 from rfl, show Int.toNat 2 = 2 from rfl]

/-- A failing head read errors the cycle before anything else runs. -/
theorem headFailure_eval :
    (runIndexerCycle overflowConfig headFailureEnv Scoring.sampleNowMs none).1 =
      .error "network error: head unavailable" := rfl

end Indexer

namespace Indexer

/-- Membership in the sanitized pending list: exactly the ids some raw
entry normalizes to, minus those already seen. -/
theorem normalizePending_mem (raw : List RawId) : ∀ (seen : List ℕ) (x : ℕ),
    x ∈ normalizePending seen raw ↔
      ((∃ id ∈ raw, normalizeAgentId id = some x) ∧ x ∉ seen) := by
  induction raw with
  | nil => intro seen x; simp [normalizePending]
  | cons id rest ih =>
      intro seen x
      rw [normalizePending]
      cases hnid : normalizeAgentId id with
      | none =>
          rw [ih seen x]
          constructor
          · rintro ⟨⟨i, hi, hix⟩, hs⟩
            exact ⟨⟨i, List.mem_cons_of_mem _ hi, hix⟩, hs⟩
          · rintro ⟨⟨i, hi, hix⟩, hs⟩
            rcases List.mem_cons.mp hi with rfl | hi
            · exact absurd hix (by simp [hnid])
            · exact ⟨⟨i, hi, hix⟩, hs⟩
      | some n =>
          by_cases hn : n ∈ seen
          · simp only [hn, if_true]
            rw [ih seen x]
            constructor
            · rintro ⟨⟨i, hi, hix⟩, hs⟩
              exact ⟨⟨i, List.mem_cons_of_mem _ hi, hix⟩, hs⟩
            · rintro ⟨⟨i, hi, hix⟩, hs⟩
              rcases List.mem_cons.mp hi with rfl | hi
              · rw [hnid] at hix
                cases hix
                exact absurd hn hs
              · exact ⟨⟨i, hi, hix⟩, hs⟩
          · simp only [hn, if_false]
            rw [List.mem_cons, ih (n :: seen) x]
            constructor
            · rintro (rfl | ⟨⟨i, hi, hix⟩, hs⟩)
              · exact ⟨⟨id, List.mem_cons_self _ _, hnid⟩, hn⟩
              · refine ⟨⟨i, List.mem_cons_of_mem _ hi, hix⟩, fun hmem => hs
                  (List.mem_cons_of_mem _ hmem)⟩
            · rintro ⟨⟨i, hi, hix⟩, hs⟩
              rcases List.mem_cons.mp hi with rfl | hi
              · rw [hnid] at hix
                cases hix
                exact Or.inl rfl
              · by_cases hxn : x = n
                · exact Or.inl hxn
                · right
                  refine ⟨⟨i, hi, hix⟩, fun hmem => ?_⟩
                  rcases List.mem_cons.mp hmem with h | h
                  · exact hxn h
                  · exact hs h

/-- Loading what the cycle saves: a duplicate-free queued list and the
observed head round-trip exactly. -/
theorem loadCheckpoint_cycle_save (latest : ℕ) (queued : List ℕ) (hnd : queued.Nodup) :
    loadCheckpoint (saveCheckpoint
      { lastProcessedBlock := some ((latest : ℚ))
        pendingAgentIds := queued.map (fun n : ℕ => .int (n : ℤ)) }) =
      { lastProcessedBlock := some latest, pendingAgentIds := queued } := by
  show normalizeCheckpoint (checkpointToRaw (normalizeCheckpoint _)) = _
  rw [normalizeCheckpoint_roundtrip]
  unfold normalizeCheckpoint
  refine congrArg₂ Checkpoint.mk ?_ ?_
  · simp [Rat.den_natCast]
  · exact normalizePending_map_int queued [] hnd (by simp)

end Indexer

/-! ### The claims -/

/-- **C1.** For every feedback list, every scoring configuration and
every `nowMs`, a (successful) `scoreFeedbackDetailed` run satisfies
`0 ≤ score ≤ maxScore`, `0 ≤ baseScore ≤ maxScore` and
`0 ≤ confidenceAdjustedScore ≤ maxScore`, where `maxScore` is the
normalized configuration's value. -/
theorem claim_C1 (feedbacks : List Scoring.Feedback) (config : Scoring.ConfigInput)
    (nowMs : ℚ) (r : Scoring.ScoringResult)
    (h : Scoring.scoreFeedbackDetailed feedbacks config nowMs = .ok r) :
    (0 ≤ r.score ∧ (r.score : ℚ) ≤ (Scoring.normalizeConfig config).maxScore) ∧
    (0 ≤ r.baseScore ∧ (r.baseScore : ℚ) ≤ (Scoring.normalizeConfig config).maxScore) ∧
    (0 ≤ r.confidenceAdjustedScore ∧
      (r.confidenceAdjustedScore : ℚ) ≤ (Scoring.normalizeConfig config).maxScore) :=
  Scoring.score_bounds_all h

/-- Witness for C1 at the flagging-penalty scenario. -/
theorem claim_C1_witness :
    (0 ≤ Scoring.flaggingExpected.score ∧
      (Scoring.flaggingExpected.score : ℚ) ≤
        (Scoring.normalizeConfig Scoring.flaggingConfig).maxScore) ∧
    (0 ≤ Scoring.flaggingExpected.baseScore ∧
      (Scoring.flaggingExpected.baseScore : ℚ) ≤
        (Scoring.normalizeConfig Scoring.flaggingConfig).maxScore) ∧
    (0 ≤ Scoring.flaggingExpected.confidenceAdjustedScore ∧
      (Scoring.flaggingExpected.confidenceAdjustedScore : ℚ) ≤
        (Scoring.normalizeConfig Scoring.flaggingConfig).maxScore) :=
  claim_C1 Scoring.flaggingFeedbacks Scoring.flaggingConfig Scoring.sampleNowMs
    Scoring.flaggingExpected Scoring.flagging_eval

/-- **C2.** For every success envelope built by the trust client:
`TRUSTED` when the (normalized) score exceeds 700, `CAUTION` on
`[400, 700]`, `DANGEROUS` below 400, `UNKNOWN` on a null score; the
no-history special case (score 0 with zero feedback counters or zero
confidence) forces `UNKNOWN`; and the recommendation follows the
verdict (`proceed` / `manual_review` / `abort`). -/
theorem claim_C2 (a : AgentKit.SuccessArgs) :
    ((AgentKit.buildSuccessResponse a).score = none →
      (AgentKit.buildSuccessResponse a).verdict = .UNKNOWN) ∧
    ((AgentKit.buildSuccessResponse a).score = some 0 ∧
        (((AgentKit.buildSuccessResponse a).data.totalFeedback = some 0 ∧
            (AgentKit.buildSuccessResponse a).data.positiveFeedback = some 0) ∨
          (AgentKit.buildSuccessResponse a).confidence = some 0) →
      (AgentKit.buildSuccessResponse a).verdict = .UNKNOWN) ∧
    (∀ q, (AgentKit.buildSuccessResponse a).score = some q → 700 < q →
      (AgentKit.buildSuccessResponse a).verdict = .TRUSTED) ∧
    (∀ q, (AgentKit.buildSuccessResponse a).score = some q → 400 ≤ q → q ≤ 700 →
      (AgentKit.buildSuccessResponse a).verdict = .CAUTION) ∧
    (∀ q, (AgentKit.buildSuccessResponse a).score = some q → q < 400 →
      ¬((AgentKit.buildSuccessResponse a).score = some 0 ∧
        (((AgentKit.buildSuccessResponse a).data.totalFeedback = some 0 ∧
            (AgentKit.buildSuccessResponse a).data.positiveFeedback = some 0) ∨
          (AgentKit.buildSuccessResponse a).confidence = some 0)) →
      (AgentKit.buildSuccessResponse a).verdict = .DANGEROUS) ∧
    ((AgentKit.buildSuccessResponse a).verdict = .TRUSTED →
      (AgentKit.buildSuccessResponse a).recommendation = .proceed) ∧
    ((AgentKit.buildSuccessResponse a).verdict = .CAUTION ∨
        (AgentKit.buildSuccessResponse a).verdict = .UNKNOWN →
      (AgentKit.buildSuccessResponse a).recommendation = .manual_review) ∧
    ((AgentKit.buildSuccessResponse a).verdict = .DANGEROUS →
      (AgentKit.buildSuccessResponse a).recommendation = .abort) := by
  obtain ⟨h1, h2, h3, h4, h5⟩ := AgentKit.buildSuccessResponse_verdict_spec a
  have hrec : (AgentKit.buildSuccessResponse a).recommendation =
      AgentKit.resolveRecommendation (AgentKit.buildSuccessResponse a).verdict := rfl
  refine ⟨h1, h2, h3, h4, h5, ?_, ?_, ?_⟩
  · intro hv; rw [hrec, hv]; rfl
  · rintro (hv | hv) <;> rw [hrec, hv] <;> rfl
  · intro hv; rw [hrec, hv]; rfl

/-- Witness for C2: a contract-shaped success envelope with score 800
is `TRUSTED ⇒ proceed`. -/
theorem claim_C2_witness :
    (AgentKit.buildSuccessResponse
      { agentId := "1", score := some 800, confidence := some 1
        source := .trustscore_contract, correlationId := "cid"
        data := { totalFeedback := some 80, positiveFeedback := some 70 } }).verdict =
      .TRUSTED ∧
    (AgentKit.buildSuccessResponse
      { agentId := "1", score := some 800, confidence := some 1
        source := .trustscore_contract, correlationId := "cid"
        data := { totalFeedback := some 80, positiveFeedback := some 70 } }).recommendation =
      .proceed := by
  have h := claim_C2
    { agentId := "1", score := some 800, confidence := some 1
      source := .trustscore_contract, correlationId := "cid"
      data := { totalFeedback := some 80, positiveFeedback := some 70 } }
  have hscore : (AgentKit.buildSuccessResponse
      { agentId := "1", score := some 800, confidence := some 1
        source := .trustscore_contract, correlationId := "cid"
        data := { totalFeedback := some 80, positiveFeedback := some 70 }
        : AgentKit.SuccessArgs }).score = some 800 := by decide
  have hv := h.2.2.1 800 hscore (by norm_num)
  exact ⟨hv, h.2.2.2.2.2.1 hv⟩

/-- **C6.** The flagging-penalty scenario (5 positive, 2 negative, all
one day old; window 7 days, threshold 2000 bps, multiplier 0.8,
confidence threshold 999) yields `baseScore = 714`, `flagged = true`,
`recentNegativeRateBps = 2857`, `score = 571`; and in general
`flagged` holds exactly when `recentFeedbackCount > 0` and
`recentNegativeRateBps` strictly exceeds the normalized
`negativeFlagThresholdBps`. -/
theorem claim_C6 :
    (Scoring.scoreFeedbackDetailed Scoring.flaggingFeedbacks Scoring.flaggingConfig
        Scoring.sampleNowMs = .ok Scoring.flaggingExpected ∧
      Scoring.flaggingExpected.baseScore = 714 ∧
      Scoring.flaggingExpected.flagged = true ∧
      Scoring.flaggingExpected.recentNegativeRateBps = 2857 ∧
      Scoring.flaggingExpected.score = 571) ∧
    (∀ (f : List Scoring.Feedback) (c : Scoring.ConfigInput) (now : ℚ)
        (r : Scoring.ScoringResult),
      Scoring.scoreFeedbackDetailed f c now = .ok r →
      (r.flagged = true ↔
        0 < r.recentFeedbackCount ∧
          (Scoring.normalizeConfig c).negativeFlagThresholdBps <
            (r.recentNegativeRateBps : ℚ))) := by
  refine ⟨⟨Scoring.flagging_eval, rfl, rfl, rfl, rfl⟩, ?_⟩
  intro f c now r h
  obtain ⟨acc, -, hr⟩ := Scoring.scoreFeedbackDetailed_ok h
  subst hr
  exact Scoring.finishScore_flagged_iff _ _

/-- Witness for C6's general flagging rule at the concrete scenario. -/
theorem claim_C6_witness :
    Scoring.flaggingExpected.flagged = true ↔
      0 < Scoring.flaggingExpected.recentFeedbackCount ∧
        (Scoring.normalizeConfig Scoring.flaggingConfig).negativeFlagThresholdBps <
          (Scoring.flaggingExpected.recentNegativeRateBps : ℚ) :=
  claim_C6.2 Scoring.flaggingFeedbacks Scoring.flaggingConfig Scoring.sampleNowMs
    Scoring.flaggingExpected Scoring.flagging_eval

/-- **C7 (counterexample).** With `confidenceMultiplier = 0.1` and
`confidenceThresholdFeedbackCount = 2`, appending one recent positive
feedback to a single recent positive feedback drops the score from
1000 to 100 while `flagged` stays `false` — refuting the claim that
adding a recent positive feedback can never decrease the score when
`flagged` is unchanged. -/
theorem claim_C7_counterexample :
    Scoring.parseFeedbackSentiment Scoring.samplePositive = .ok true ∧
    Scoring.parseFeedbackTimestampMs Scoring.samplePositive = .ok Scoring.sampleDayAgoMs ∧
    Scoring.sampleNowMs -
        (Scoring.normalizeConfig Scoring.shrinkConfig).decayWindowDays * Scoring.DAY_MS ≤
      Scoring.sampleDayAgoMs ∧
    Scoring.scoreFeedbackDetailed [Scoring.samplePositive] Scoring.shrinkConfig
      Scoring.sampleNowMs = .ok Scoring.shrinkResultOne ∧
    Scoring.scoreFeedbackDetailed ([Scoring.samplePositive] ++ [Scoring.samplePositive])
      Scoring.shrinkConfig Scoring.sampleNowMs = .ok Scoring.shrinkResultTwo ∧
    Scoring.shrinkResultOne.flagged = Scoring.shrinkResultTwo.flagged ∧
    Scoring.shrinkResultTwo.score < Scoring.shrinkResultOne.score := by
  refine ⟨Scoring.samplePositive_sentiment, Scoring.samplePositive_timestamp, ?_,
    Scoring.shrink_eval_one, Scoring.shrink_eval_two, rfl, by norm_num [Scoring.shrinkResultOne,
      Scoring.shrinkResultTwo]⟩
  norm_num [Scoring.normalizeConfig, Scoring.toPositiveInt, Scoring.shrinkConfig,
    Scoring.DEFAULT_SCORING_CONFIG, Scoring.DAY_MS, Scoring.sampleNowMs, Scoring.sampleDayAgoMs]

/-- **C7 (amended).** Appending one positive feedback whose timestamp
lies within the decay window of `nowMs` never decreases the score,
provided both the `flagged` *and* the `confidenceApplied` outputs are
unchanged (the latter condition is forced by the counterexample: a
sub-unit `confidenceMultiplier` can shrink the score when the
confidence threshold is crossed). -/
theorem claim_C7 (config : Scoring.ConfigInput) (nowMs : ℚ) (F : List Scoring.Feedback)
    (e : Scoring.Feedback) (te : ℚ) (r r' : Scoring.ScoringResult)
    (hp : Scoring.parseFeedbackSentiment e = .ok true)
    (ht : Scoring.parseFeedbackTimestampMs e = .ok te)
    (_hrecent : nowMs - (Scoring.normalizeConfig config).decayWindowDays * Scoring.DAY_MS ≤ te)
    (hF : Scoring.scoreFeedbackDetailed F config nowMs = .ok r)
    (hF' : Scoring.scoreFeedbackDetailed (F ++ [e]) config nowMs = .ok r')
    (hflag : r.flagged = r'.flagged)
    (hconf : r.confidenceApplied = r'.confidenceApplied) :
    r.score ≤ r'.score :=
  Scoring.scoreFeedbackDetailed_append_positive_mono config nowMs F e te r r' hp ht hF hF'
    hflag hconf

/-- Witness for the amended C7 under the default configuration. -/
theorem claim_C7_witness : Scoring.defaultResultOne.score ≤ Scoring.defaultResultTwo.score :=
  claim_C7 {} Scoring.sampleNowMs [Scoring.samplePositive] Scoring.samplePositive
    Scoring.sampleDayAgoMs Scoring.defaultResultOne Scoring.defaultResultTwo
    Scoring.samplePositive_sentiment Scoring.samplePositive_timestamp
    (by norm_num [Scoring.normalizeConfig, Scoring.toPositiveInt,
      Scoring.DEFAULT_SCORING_CONFIG, Scoring.DAY_MS, Scoring.sampleNowMs,
      Scoring.sampleDayAgoMs])
    Scoring.default_eval_one Scoring.default_eval_two rfl rfl

/-- **C10.** `normalizeConfig` clamps `negativeFlagThresholdBps` into
`[0, 10000]` (integers above 10000 become 10000, negative integers
become 0); and since `recentNegativeRateBps` never exceeds 10000,
configuring an integer threshold at or above 10000 makes `flagged`
false on every feedback list. -/
theorem claim_C10 :
    (∀ i : Scoring.ConfigInput,
      0 ≤ (Scoring.normalizeConfig i).negativeFlagThresholdBps ∧
        (Scoring.normalizeConfig i).negativeFlagThresholdBps ≤ 10000) ∧
    (∀ (i : Scoring.ConfigInput) (q : ℚ), i.negativeFlagThresholdBps = some q → q.den = 1 →
      (10000 < q → (Scoring.normalizeConfig i).negativeFlagThresholdBps = 10000) ∧
      (q < 0 → (Scoring.normalizeConfig i).negativeFlagThresholdBps = 0)) ∧
    (∀ (i : Scoring.ConfigInput) (q : ℚ) (f : List Scoring.Feedback) (now : ℚ)
        (r : Scoring.ScoringResult),
      i.negativeFlagThresholdBps = some q → q.den = 1 → 10000 ≤ q →
      Scoring.scoreFeedbackDetailed f i now = .ok r → r.flagged = false) := by
  refine ⟨?_, ?_, ?_⟩
  · intro i
    exact Scoring.toBps_bounds i.negativeFlagThresholdBps _ (by norm_num
      [Scoring.DEFAULT_SCORING_CONFIG]) (by norm_num [Scoring.DEFAULT_SCORING_CONFIG])
  · intro i q hq hden
    constructor
    · intro hbig
      simp only [Scoring.normalizeConfig, Scoring.toBps, hq, hden, if_true]
      rw [if_neg (by linarith), if_pos hbig]
    · intro hneg
      simp only [Scoring.normalizeConfig, Scoring.toBps, hq, hden, if_true]
      rw [if_pos hneg]
  · intro i q f now r hq hden hge h
    have hthresh : (Scoring.normalizeConfig i).negativeFlagThresholdBps = 10000 := by
      simp only [Scoring.normalizeConfig, Scoring.toBps, hq, hden, if_true]
      rw [if_neg (by linarith)]
      by_cases hgt : 10000 < q
      · rw [if_pos hgt]
      · rw [if_neg hgt]
        linarith [le_of_not_lt hgt]
    obtain ⟨acc, hacc, hr⟩ := Scoring.scoreFeedbackDetailed_ok h
    have hinv := Scoring.scoreAccum_inv _ _ _
      (Scoring.normalizeConfig_recentWeight_pos i) (Scoring.normalizeConfig_olderWeight_pos i)
      f {} acc hacc (le_refl 0) (le_refl 0) (le_refl 0)
    have hrate := Scoring.finishScore_rate_le (Scoring.normalizeConfig i) acc hinv.2.2
    by_contra hflag
    have hflag' : r.flagged = true := by
      cases hfb : r.flagged
      · exact absurd hfb hflag
      · rfl
    rw [hr] at hflag'
    obtain ⟨-, hgt⟩ := (Scoring.finishScore_flagged_iff (Scoring.normalizeConfig i) acc).mp hflag'
    rw [hthresh] at hgt
    rw [hr] at *
    exact absurd hrate (not_le.mpr hgt)

/-- Witness for C10's flag-disabling at a 10000 bps threshold. -/
theorem claim_C10_witness : Scoring.highThresholdExpected.flagged = false :=
  claim_C10.2.2 Scoring.highThresholdConfig 10000 Scoring.flaggingFeedbacks Scoring.sampleNowMs
    Scoring.highThresholdExpected rfl rfl (le_refl 10000) Scoring.highThreshold_eval

/-- **C3 (counterexample).** With the default paid → demo → contract
sequence, the paid API failing with 402 and the demo API failing with
500 before the contract read succeeds, the envelope carries
`oracle_unavailable` — the classification of the *last* failure — not
the first failure's `payment_unavailable`. -/
theorem claim_C3_counterexample :
    (AgentKit.queryTrust AgentKit.twoFailAttempt AgentKit.fullChainConfig "1"
      none none none "cid").status = .degraded ∧
    (AgentKit.queryTrust AgentKit.twoFailAttempt AgentKit.fullChainConfig "1"
      none none none "cid").source = .trustscore_contract ∧
    AgentKit.twoFailAttempt .api_paid =
      .error { statusCode := some 402, message := "payment required" } ∧
    AgentKit.classifyFailure .api_paid
      { statusCode := some 402, message := "payment required" } = .payment_unavailable ∧
    (AgentKit.queryTrust AgentKit.twoFailAttempt AgentKit.fullChainConfig "1"
      none none none "cid").fallback = some .oracle_unavailable ∧
    some AgentKit.FallbackCode.oracle_unavailable ≠
      some AgentKit.FallbackCode.payment_unavailable := by
  refine ⟨by decide, by decide, rfl, by decide, by decide, by decide⟩

/-- **C3 (amended).** Whenever every source before some source `s`
fails (`gs` then `f`, with `f` the latest failure) and `s` succeeds,
the envelope is `degraded`, names `s` as its source, and carries the
classification of the *last* failed attempt `f` in its `fallback`
field. -/
theorem claim_C3 (attempt : AgentKit.AttemptFn) (config : AgentKit.ClientConfig)
    (rawAgentId : String) (mode : Option AgentKit.Source) (ovDemo ovOnchain : Option Bool)
    (correlationId : String) (gs : List AgentKit.Source) (f s : AgentKit.Source)
    (ss₂ : List AgentKit.Source) (e : AgentKit.JsError) (res : AgentKit.RawResult) (n : ℕ)
    (hid : AgentKit.parseAgentIdParam rawAgentId = .ok n)
    (hseq : AgentKit.resolveSequence (some (mode.getD config.defaultMode)) config
      ovDemo ovOnchain = gs ++ f :: s :: ss₂)
    (hgs : ∀ g ∈ gs, ∃ e', attempt g = .error e')
    (hf : attempt f = .error e)
    (hs : attempt s = .ok res) :
    (AgentKit.queryTrust attempt config rawAgentId mode ovDemo ovOnchain
      correlationId).status = .degraded ∧
    (AgentKit.queryTrust attempt config rawAgentId mode ovDemo ovOnchain
      correlationId).source = s ∧
    (AgentKit.queryTrust attempt config rawAgentId mode ovDemo ovOnchain
      correlationId).fallback = some (AgentKit.classifyFailure f e) := by
  have hloop := AgentKit.attemptSources_last_failure attempt (Nat.repr n) correlationId
    gs f s ss₂ e res hgs hf hs none
  simp only [AgentKit.queryTrust, hid, hseq, hloop]
  exact ⟨rfl, rfl, rfl⟩

/-- Witness for the amended C3: paid fails with HTTP 500, the contract
read succeeds. -/
theorem claim_C3_witness :
    (AgentKit.queryTrust AgentKit.oneFailAttempt AgentKit.paidContractConfig "1"
      none none none "cid").status = .degraded ∧
    (AgentKit.queryTrust AgentKit.oneFailAttempt AgentKit.paidContractConfig "1"
      none none none "cid").source = .trustscore_contract ∧
    (AgentKit.queryTrust AgentKit.oneFailAttempt AgentKit.paidContractConfig "1"
      none none none "cid").fallback =
      some (AgentKit.classifyFailure .api_paid
        { statusCode := some 500, message := "upstream exploded" }) :=
  claim_C3 AgentKit.oneFailAttempt AgentKit.paidContractConfig "1" none none none "cid"
    [] .api_paid .trustscore_contract []
    { statusCode := some 500, message := "upstream exploded" } AgentKit.contractSuccess 1
    rfl (by decide) (by simp) rfl rfl

/-- **C9 (counterexample).** `isRpcError` recurses to arbitrary depth
(here: a retryable code two `cause` levels down) and also follows the
nested `error` property, both beyond what "the error itself or its
cause one level deep" describes. -/
theorem claim_C9_counterexample :
    Indexer.isRpcError Indexer.deepCauseError = true ∧
    Indexer.claimRetryableOneLevel Indexer.deepCauseError = false ∧
    Indexer.isRpcError Indexer.errFieldOnlyError = true ∧
    Indexer.claimRetryableOneLevel Indexer.errFieldOnlyError = false := by
  refine ⟨?_, ?_, ?_, ?_⟩ <;>
    simp [Indexer.isRpcError, Indexer.claimRetryableOneLevel, Indexer.nodeRetryableMsgOnly,
      Indexer.deepCauseError, Indexer.errFieldOnlyError, Indexer.retryNumericCodes,
      Indexer.retryStringCodes, Indexer.retryHints, Js.containsSub, Js.containsAux,
      Js.lowerStr, Indexer.RpcError.causeField]

/-- **C9 (amended).** `isRpcError` returns true exactly when some
error object along the chain formed by following the nested `error`
property when present, and otherwise the nested `cause` property,
satisfies one of the retryability conditions (numeric code in
`{-32000, -32005, -32603}`, string code in the known set, or the
concatenated `message`/`shortMessage` text containing one of the hint
substrings, case-insensitively); a null error is never retryable. -/
theorem claim_C9 :
    Indexer.isRpcErrorOpt none = false ∧
    ∀ e : Indexer.RpcError,
      Indexer.isRpcError e = true ↔
        ∃ node ∈ Indexer.retryChain e, Indexer.nodeRetryable node = true := by
  refine ⟨rfl, ?_⟩
  intro e
  rw [Indexer.isRpcError_eq_chain]
  simp [List.any_eq_true]

/-- **C5.** A cycle that fails at any modelled step (all of which
precede the final checkpoint write) leaves the stored checkpoint
exactly as it was. -/
theorem claim_C5 (cfg : Indexer.IndexerConfig) (env : Indexer.ChainEnv) (nowMs : ℚ)
    (store : Option Indexer.RawCheckpoint) (err : String)
    (h : (Indexer.runIndexerCycle cfg env nowMs store).1 = .error err) :
    (Indexer.runIndexerCycle cfg env nowMs store).2 = store :=
  Indexer.runIndexerCycle_error_store cfg env nowMs store err h

/-- Witness for C5: a failed head read leaves the (absent) checkpoint
file absent. -/
theorem claim_C5_witness :
    (Indexer.runIndexerCycle Indexer.overflowConfig Indexer.headFailureEnv
      Scoring.sampleNowMs none).2 = none :=
  claim_C5 Indexer.overflowConfig Indexer.headFailureEnv Scoring.sampleNowMs none
    "network error: head unavailable" Indexer.headFailure_eval

/-- **C8.** Saving any checkpoint value and loading it back yields its
normalization; normalization keeps `lastProcessedBlock` only for a
non-negative integer, and sanitizes `pendingAgentIds` to exactly the
normalizable, duplicate-free ids; loading a missing file yields the
zero checkpoint. -/
theorem claim_C8 :
    (∀ c : Indexer.RawCheckpoint,
      Indexer.loadCheckpoint (Indexer.saveCheckpoint c) = Indexer.normalizeCheckpoint c) ∧
    (∀ c : Indexer.RawCheckpoint, ((Indexer.normalizeCheckpoint c).pendingAgentIds).Nodup) ∧
    (∀ (c : Indexer.RawCheckpoint) (x : ℕ),
      x ∈ (Indexer.normalizeCheckpoint c).pendingAgentIds ↔
        ∃ id ∈ c.pendingAgentIds, Indexer.normalizeAgentId id = some x) ∧
    (∀ (c : Indexer.RawCheckpoint) (q : ℚ), c.lastProcessedBlock = some q →
      ((q.den = 1 ∧ 0 ≤ q) →
        (Indexer.normalizeCheckpoint c).lastProcessedBlock = some q.num.toNat) ∧
      (¬(q.den = 1 ∧ 0 ≤ q) →
        (Indexer.normalizeCheckpoint c).lastProcessedBlock = none)) ∧
    Indexer.loadCheckpoint none = { lastProcessedBlock := none, pendingAgentIds := [] } := by
  refine ⟨?_, ?_, ?_, ?_, rfl⟩
  · intro c
    show Indexer.normalizeCheckpoint (Indexer.checkpointToRaw (Indexer.normalizeCheckpoint c)) = _
    exact Indexer.normalizeCheckpoint_roundtrip c
  · intro c
    exact (Indexer.normalizePending_nodup_disj c.pendingAgentIds []).1
  · intro c x
    show x ∈ Indexer.normalizePending [] c.pendingAgentIds ↔ _
    rw [Indexer.normalizePending_mem]
    simp
  · intro c q hq
    constructor
    · intro hok
      simp [Indexer.normalizeCheckpoint, hq, hok]
    · intro hbad
      simp [Indexer.normalizeCheckpoint, hq, hbad]

/-- Witness for C8's `lastProcessedBlock` normalization at a concrete
checkpoint. -/
theorem claim_C8_witness :
    (Indexer.normalizeCheckpoint
      { lastProcessedBlock := some 5
        pendingAgentIds := [.int 2, .int 2, .int (-1), .invalid] }).lastProcessedBlock =
      some ((5 : ℚ)).num.toNat :=
  (claim_C8.2.2.2.1
    { lastProcessedBlock := some 5
      pendingAgentIds := [.int 2, .int 2, .int (-1), .invalid] } 5 rfl).1 (by norm_num)

/-- **C4.** A successful cycle processes exactly the numerically
smallest `maxBatchSize` agents of its dirty set and persists the rest
as `pendingAgentIds`: processed and queued ids together are exactly
the dirty set (checkpoint pending ∪ scanned agents), listed in strictly
ascending order with every processed id below every queued id, the
processed count is `min maxBatchSize dirtyCount`, the saved checkpoint
holds exactly the queued ids, and every queued agent is in the next
cycle's dirty set even when no new events arrive.  Concretely, with
two dirty agents and `maxBatchSize = 1`, the first cycle processes one
agent and queues one, and the second cycle (no new events) processes
the queued agent and leaves nothing pending. -/
theorem claim_C4 :
    (∀ (cfg : Indexer.IndexerConfig) (env : Indexer.ChainEnv) (nowMs : ℚ)
        (store : Option Indexer.RawCheckpoint) (res : Indexer.CycleResult)
        (store' : Option Indexer.RawCheckpoint) (latest : ℕ) (logs : List Indexer.FeedbackLog),
      Indexer.runIndexerCycle cfg env nowMs store = (.ok res, store') →
      env.getBlockNumber = .ok latest →
      (if (Indexer.loadCheckpoint store).lastProcessedBlock.getD
            (max (cfg.startBlock - 1) 0) + 1 ≤ latest
       then env.queryLogs ((Indexer.loadCheckpoint store).lastProcessedBlock.getD
            (max (cfg.startBlock - 1) 0) + 1) latest
       else .ok []) = .ok logs →
      ((∀ x : ℕ, (x ∈ res.processedAgentIds ∨ x ∈ res.queuedAgentIds) ↔
          (x ∈ (Indexer.loadCheckpoint store).pendingAgentIds ∨
            x ∈ logs.map Indexer.FeedbackLog.agentId)) ∧
        List.Sorted (· < ·) (res.processedAgentIds ++ res.queuedAgentIds) ∧
        (∀ a ∈ res.processedAgentIds, ∀ b ∈ res.queuedAgentIds, a < b) ∧
        res.processedAgentCount = min cfg.maxBatchSize res.dirtyAgentCount ∧
        Indexer.loadCheckpoint store' =
          { lastProcessedBlock := some latest, pendingAgentIds := res.queuedAgentIds } ∧
        (∀ (env2 : Indexer.ChainEnv) (nowMs2 : ℚ) (res2 : Indexer.CycleResult)
            (store2 : Option Indexer.RawCheckpoint) (latest2 : ℕ),
          Indexer.runIndexerCycle cfg env2 nowMs2 store' = (.ok res2, store2) →
          env2.getBlockNumber = .ok latest2 →
          (latest + 1 ≤ latest2 → env2.queryLogs (latest + 1) latest2 = .ok []) →
          ∀ a ∈ res.queuedAgentIds, a ∈ res2.processedAgentIds ∨ a ∈ res2.queuedAgentIds))) ∧
    (Indexer.runIndexerCycle Indexer.overflowConfig Indexer.overflowEnv1 Scoring.sampleNowMs
        none =
      (.ok { fromBlock := 1, latestBlock := 5, newEventCount := 2, dirtyAgentCount := 2
             processedAgentCount := 1, queuedAgentCount := 1, processedAgentIds := [1]
             queuedAgentIds := [2], txHashes := ["0xtx1"] },
       some { lastProcessedBlock := some 5, pendingAgentIds := [.int 2] }) ∧
     Indexer.runIndexerCycle Indexer.overflowConfig Indexer.overflowEnv2 Scoring.sampleNowMs
        (some { lastProcessedBlock := some 5, pendingAgentIds := [.int 2] }) =
      (.ok { fromBlock := 6, latestBlock := 5, newEventCount := 0, dirtyAgentCount := 1
             processedAgentCount := 1, queuedAgentCount := 0, processedAgentIds := [2]
             queuedAgentIds := [], txHashes := ["0xtx2"] },
       some { lastProcessedBlock := some 5, pendingAgentIds := [] })) := by
  constructor
  · intro cfg env nowMs store res store' latest logs hrun hlat hscan
    obtain ⟨latest', logs', updates, hlat', hscan', hproc, hres_latest, hres_proc, hres_queued,
      hres_dirty, hres_pcount, hres_qcount, hstore'⟩ := Indexer.runIndexerCycle_ok_inv hrun
    have hlq : latest = latest' := by
      rw [hlat] at hlat'
      exact Except.ok.inj hlat'
    subst hlq
    have hlogs : logs = logs' := by
      rw [hscan] at hscan'
      exact Except.ok.inj hscan'
    subst hlogs
    have hproc_ids : res.processedAgentIds =
        (Indexer.sortAsc (Indexer.firstDedup ((Indexer.loadCheckpoint store).pendingAgentIds ++
          logs.map Indexer.FeedbackLog.agentId))).take cfg.maxBatchSize := by
      rw [hres_proc, Indexer.processAgents_map_fst _ _ _ _ _ _ hproc]
    have hnodupD : (Indexer.firstDedup ((Indexer.loadCheckpoint store).pendingAgentIds ++
        logs.map Indexer.FeedbackLog.agentId)).Nodup := Indexer.firstDedup_nodup _
    have hsorted_lt : List.Sorted (· < ·)
        (Indexer.sortAsc (Indexer.firstDedup ((Indexer.loadCheckpoint store).pendingAgentIds ++
          logs.map Indexer.FeedbackLog.agentId))) := Indexer.sortAsc_sorted_lt hnodupD
    have happ : res.processedAgentIds ++ res.queuedAgentIds =
        Indexer.sortAsc (Indexer.firstDedup ((Indexer.loadCheckpoint store).pendingAgentIds ++
          logs.map Indexer.FeedbackLog.agentId)) := by
      rw [hproc_ids, hres_queued, List.take_append_drop]
    have hqueued_nodup : res.queuedAgentIds.Nodup := by
      rw [hres_queued]
      exact ((List.drop_sublist _ _).nodup) (Indexer.sortAsc_nodup hnodupD)
    refine ⟨?_, ?_, ?_, ?_, ?_, ?_⟩
    · intro x
      rw [← List.mem_append, happ, Indexer.sortAsc_mem, Indexer.firstDedup_mem, List.mem_append]
    · rw [happ]
      exact hsorted_lt
    · have hp := hsorted_lt
      rw [← happ] at hp
      exact (List.pairwise_append.mp hp).2.2
    · rw [hres_pcount, hres_dirty]
      have hulen : updates.length = res.processedAgentIds.length := by
        rw [hres_proc, List.length_map]
      rw [hulen, hproc_ids, List.length_take]
    · rw [hstore', ← hres_queued]
      have := Indexer.loadCheckpoint_cycle_save latest res.queuedAgentIds hqueued_nodup
      rw [hres_queued] at this ⊢
      exact this
    · intro env2 nowMs2 res2 store2 latest2 hrun2 hlat2 hnoev a ha
      have hload' : Indexer.loadCheckpoint store' =
          { lastProcessedBlock := some latest, pendingAgentIds := res.queuedAgentIds } := by
        rw [hstore', ← hres_queued]
        exact Indexer.loadCheckpoint_cycle_save latest res.queuedAgentIds hqueued_nodup
      obtain ⟨l2, logs2, updates2, hlat2', hscan2, hproc2, hres2_latest, hres2_proc,
        hres2_queued, hres2_dirty, hres2_pcount, hres2_qcount, hstore2⟩ :=
        Indexer.runIndexerCycle_ok_inv hrun2
      have hl2 : latest2 = l2 := by
        rw [hlat2] at hlat2'
        exact Except.ok.inj hlat2'
      subst hl2
      have hgetD : (Indexer.loadCheckpoint store').lastProcessedBlock.getD
          (max (cfg.startBlock - 1) 0) = latest := by
        simp [hload']
      have hlogs2 : logs2 = [] := by
        rw [hgetD] at hscan2
        by_cases hle : latest + 1 ≤ latest2
        · rw [if_pos hle, hnoev hle] at hscan2
          exact (Except.ok.inj hscan2).symm
        · rw [if_neg hle] at hscan2
          exact (Except.ok.inj hscan2).symm
      have hdirty2 : Indexer.firstDedup ((Indexer.loadCheckpoint store').pendingAgentIds ++
          logs2.map Indexer.FeedbackLog.agentId) = res.queuedAgentIds := by
        rw [hlogs2, hload']
        simp only [List.map_nil, List.append_nil]
        exact Indexer.firstDedup_of_nodup hqueued_nodup
      have hproc2_ids : res2.processedAgentIds =
          (Indexer.sortAsc (Indexer.firstDedup
            ((Indexer.loadCheckpoint store').pendingAgentIds ++
              logs2.map Indexer.FeedbackLog.agentId))).take cfg.maxBatchSize := by
        rw [hres2_proc, Indexer.processAgents_map_fst _ _ _ _ _ _ hproc2]
      have hmem : a ∈ res2.processedAgentIds ++ res2.queuedAgentIds := by
        rw [hproc2_ids, hres2_queued, List.take_append_drop, Indexer.sortAsc_mem, hdirty2]
        exact ha
      exact List.mem_append.mp hmem
  · exact ⟨Indexer.overflow_cycle_one, Indexer.overflow_cycle_two⟩

/-- Witness for C4: in the overflow scenario the queued agent 2 is a
member of the second cycle's dirty set. -/
theorem claim_C4_witness :
    (2 : ℕ) ∈ ([2] : List ℕ) ∨ (2 : ℕ) ∈ ([] : List ℕ) :=
  (claim_C4.1 Indexer.overflowConfig Indexer.overflowEnv1 Scoring.sampleNowMs none
      { fromBlock := 1, latestBlock := 5, newEventCount := 2, dirtyAgentCount := 2
        processedAgentCount := 1, queuedAgentCount := 1, processedAgentIds := [1]
        queuedAgentIds := [2], txHashes := ["0xtx1"] }
      (some { lastProcessedBlock := some 5, pendingAgentIds := [.int 2] }) 5
      Indexer.twoAgentLogs Indexer.overflow_cycle_one rfl rfl).2.2.2.2.2
    Indexer.overflowEnv2 Scoring.sampleNowMs
    { fromBlock := 6, latestBlock := 5, newEventCount := 0, dirtyAgentCount := 1
      processedAgentCount := 1, queuedAgentCount := 0, processedAgentIds := [2]
      queuedAgentIds := [], txHashes := ["0xtx2"] }
    (some { lastProcessedBlock := some 5, pendingAgentIds := [] }) 5
    Indexer.overflow_cycle_two rfl (fun h => absurd h (by norm_num)) 2 (by simp)
